import Mathlib

/-!
Verification development for the promo-vid-gen repository.

The repository is a thin orchestration layer: two workflow drivers
(`VideoWorkflow` in `video_workflow.py` and `AgnoVideoWorkflow` in
`agno_video_workflow.py`) chain agent calls; the agents wrap external
services (Google Places, a headless-browser scraper, an LLM, video APIs).

We shallowly embed the Python code: Python dicts become association lists
of `String × Val` (insertion updates an existing key in place, otherwise
appends — matching CPython dict order semantics), external service calls
become oracle function parameters of type `… → Except String …` (`.error`
models a raised exception carrying `str(e)`), and each workflow driver is
instrumented to also return the trace of agent invocations it performed,
so that call-order and data-flow properties can be stated.
-/

/-- A Python value as it appears in this repository's JSON-ish dicts. -/
inductive Val where
  | str : String → Val
  | int : Int → Val
  | rat : ℚ → Val
  | bool : Bool → Val
  | null : Val
  | list : List Val → Val
  | dict : List (String × Val) → Val
  deriving Repr

/-- A Python dict: association list keeping CPython insertion order. -/
abbrev Obj := List (String × Val)

/-- Python `d.get(key)` / `key in d`: first binding of `key`, if any. -/
def lookup : Obj → String → Option Val
  | [], _ => Option.none
  | (k, v) :: rest, key => if k = key then some v else lookup rest key

/-- Python `d.get(key, default)`. -/
def getD (o : Obj) (k : String) (d : Val) : Val := (lookup o k).getD d

/-- Python `d[key] = v`: replace the binding in place, else append. -/
def insertObj : Obj → String → Val → Obj
  | [], k, v => [(k, v)]
  | (k1, v1) :: rest, k, v =>
    if k1 = k then (k, v) :: rest else (k1, v1) :: insertObj rest k v

/-- Python `d[key] = f(d[key])` on a nested dict entry: replace the value
bound at `key` in place; a missing `key` leaves the dict unchanged (the
workflows below only call this on keys they created). -/
def updVal (key : String) (f : Val → Val) : Obj → Obj
  | [] => []
  | (k, v) :: rest =>
    if k = key then (k, f v) :: rest else (k, v) :: updVal key f rest

/-- Python truthiness of a value. -/
def pyTruthy : Val → Bool
  | .str s => !(s == "")
  | .int n => !(n == 0)
  | .rat q => !(q == 0)
  | .bool b => b
  | .null => false
  | .list vs => !vs.isEmpty
  | .dict d => !d.isEmpty

mutual
/-- Python `str(v)` (strings are rendered without quotes everywhere;
only ever applied to strings by the claims below). -/
def pyStr : Val → String
  | .str s => s
  | .int n => toString n
  | .rat q => toString q
  | .bool b => if b then "True" else "False"
  | .null => "None"
  | .list vs => "[" ++ pyStrList vs ++ "]"
  | .dict d => "\x7b" ++ pyStrObj d ++ "\x7d"

def pyStrList : List Val → String
  | [] => ""
  | [v] => pyStr v
  | v :: rest => pyStr v ++ ", " ++ pyStrList rest

def pyStrObj : List (String × Val) → String
  | [] => ""
  | [(k, v)] => k ++ ": " ++ pyStr v
  | (k, v) :: rest => k ++ ": " ++ pyStr v ++ ", " ++ pyStrObj rest
end

/-- `v == "s"` in Python, for a dict value compared against a string literal. -/
def isStr (v : Val) (s : String) : Bool :=
  match v with
  | .str t => t == s
  | _ => false

namespace BaseAgent

/-- `BaseAgent.validate_input` (base_agent.py:30-43): collects the required
fields that are not keys of the input and raises `ValueError` when that
list is non-empty. -/
def validate_input (input_data : Obj) (required_fields : List String) :
    Except String Unit :=
  let missing_fields := required_fields.filter
    (fun field => (lookup input_data field).isNone)
  if missing_fields.isEmpty then Except.ok ()
  else Except.error ("Missing required fields: [" ++
    String.intercalate ", " missing_fields ++ "]")

end BaseAgent

namespace VideoWorkflow

/-- The four agents held by `VideoWorkflow`, as oracles: each maps the
input dict to either its output dict or a raised exception message. -/
structure Agents where
  mapParser : Obj → Except String Obj
  menu_extractor : Obj → Except String Obj
  script_generator : Obj → Except String Obj
  video_generator : Obj → Except String Obj

/-- One recorded agent invocation of `VideoWorkflow`. -/
structure Call where
  agent : String
  input : Obj
  output : Except String Obj

/-- Input dict built for the map-parser agent `run` call (video_workflow.py:54-56). -/
def mapInput (url : Val) : Obj := [("google_maps_url", url)]

/-- Input dict built for `menu_extractor.run` (video_workflow.py:60-63). -/
def menuInput (restaurant_info : Obj) : Obj :=
  [("website", getD restaurant_info "website" (Val.str "")),
   ("restaurant_name", getD restaurant_info "restaurant_name" (Val.str "Restaurant"))]

/-- Input dict built for `script_generator.run` (video_workflow.py:67-73). -/
def scriptInput (input restaurant_info : Obj) (rname menu : Val) : Obj :=
  [("restaurant_name", rname),
   ("address", getD restaurant_info "address" (Val.str "")),
   ("menu", menu),
   ("style", getD input "style" (Val.str "casual")),
   ("duration", getD input "duration" (Val.int 30))]

/-- Input dict built for `video_generator.run` (video_workflow.py:77-82). -/
def videoInput (s sc rname st : Val) : Obj :=
  [("script", s), ("scenes", sc), ("restaurant_name", rname), ("style", st)]

/-- The dict returned by the `except` clause of `run` (video_workflow.py:105-109). -/
def failResult (task_id : Val) (e : String) : Obj :=
  [("task_id", task_id), ("status", Val.str "failed"), ("error", Val.str e)]

/-- The dict returned on success by `run` (video_workflow.py:86-99). -/
def completedResult (vp tp : Val) (restaurant_info menu_data script_data : Obj)
    (dur fs res task_id : Val) : Obj :=
  [("video_path", vp), ("thumbnail_path", tp),
   ("restaurant_info", Val.dict restaurant_info),
   ("menu_data", Val.dict menu_data),
   ("script_data", Val.dict script_data),
   ("video_metadata", Val.dict [("duration", dur), ("file_size", fs), ("resolution", res)]),
   ("task_id", task_id), ("status", Val.str "completed")]

/-- `VideoWorkflow.run` (video_workflow.py:23-109), instrumented with the
trace of agent invocations. A missing dict key raises `KeyError`, caught by
the enclosing `try` like any other exception. -/
def run (ag : Agents) (input : Obj) : Obj × List Call :=
  let task_id := getD input "task_id" (Val.str "workflow")
  match lookup input "google_maps_url" with
  | Option.none => (failResult task_id "KeyError: google_maps_url", [])
  | some url =>
    let in1 := mapInput url
    match ag.mapParser in1 with
    | .error e => (failResult task_id e, [⟨"map\x5fparser", in1, .error e⟩])
    | .ok restaurant_info =>
      let c1 : Call := ⟨"map\x5fparser", in1, .ok restaurant_info⟩
      let in2 := menuInput restaurant_info
      match ag.menu_extractor in2 with
      | .error e => (failResult task_id e, [c1, ⟨"menu_extractor", in2, .error e⟩])
      | .ok menu_data =>
        let c2 : Call := ⟨"menu_extractor", in2, .ok menu_data⟩
        match lookup restaurant_info "restaurant_name" with
        | Option.none => (failResult task_id "KeyError: restaurant_name", [c1, c2])
        | some rname =>
          match lookup menu_data "menu" with
          | Option.none => (failResult task_id "KeyError: menu", [c1, c2])
          | some menu =>
            let in3 := scriptInput input restaurant_info rname menu
            match ag.script_generator in3 with
            | .error e => (failResult task_id e, [c1, c2, ⟨"script_generator", in3, .error e⟩])
            | .ok script_data =>
              let c3 : Call := ⟨"script_generator", in3, .ok script_data⟩
              match lookup script_data "script" with
              | Option.none => (failResult task_id "KeyError: script", [c1, c2, c3])
              | some s =>
                match lookup script_data "scenes" with
                | Option.none => (failResult task_id "KeyError: scenes", [c1, c2, c3])
                | some sc =>
                  match lookup script_data "style" with
                  | Option.none => (failResult task_id "KeyError: style", [c1, c2, c3])
                  | some st =>
                    let in4 := videoInput s sc rname st
                    match ag.video_generator in4 with
                    | .error e =>
                      (failResult task_id e, [c1, c2, c3, ⟨"video_generator", in4, .error e⟩])
                    | .ok video_result =>
                      let c4 : Call := ⟨"video_generator", in4, .ok video_result⟩
                      match lookup video_result "video_path", lookup video_result "thumbnail_path",
                            lookup video_result "duration", lookup video_result "file_size",
                            lookup video_result "resolution" with
                      | some vp, some tp, some dur, some fs, some res =>
                        (completedResult vp tp restaurant_info menu_data script_data
                          dur fs res task_id, [c1, c2, c3, c4])
                      | _, _, _, _, _ =>
                        (failResult task_id "KeyError: video result field", [c1, c2, c3, c4])

/-- `VideoWorkflow.run_step` (video_workflow.py:111-133), instrumented with
the trace. An unknown step name raises `ValueError("Unknown step: …")`;
a known one returns that single agent's `run` output verbatim. -/
def run_step (ag : Agents) (step : String) (input : Obj) :
    Except String Obj × List Call :=
  if step = "map\x5fparser" then
    (ag.mapParser input, [⟨"map\x5fparser", input, ag.mapParser input⟩])
  else if step = "menu_extractor" then
    (ag.menu_extractor input, [⟨"menu_extractor", input, ag.menu_extractor input⟩])
  else if step = "script_generator" then
    (ag.script_generator input, [⟨"script_generator", input, ag.script_generator input⟩])
  else if step = "video_generator" then
    (ag.video_generator input, [⟨"video_generator", input, ag.video_generator input⟩])
  else (.error ("Unknown step: " ++ step), [])

end VideoWorkflow

namespace AgnoVideoWorkflow

/-- The agent methods invoked by `AgnoVideoWorkflow`, as oracles. In the
source these methods catch their own exceptions and return status dicts,
but the workflow also guards them with `try`, so we allow `.error`. -/
structure Agents where
  extract_restaurant_data : String → Except String Obj
  analyze_restaurant_characteristics : Obj → Except String Obj
  extract_menu_data : String → Except String Obj
  recommend_featured_items : Obj → Obj → Except String Obj
  generate_video_script : Obj → Obj → String → Except String Obj
  create_social_media_content : Obj → Except String Obj
  plan_video_production : Obj → Obj → Except String Obj
  prepare_voiceover_generation : String → String → Except String Obj
  generate_production_summary : Obj → Except String Obj

/-- One recorded agent invocation of `AgnoVideoWorkflow`, with its
argument list encoded as values and the dict it returned (or the
exception it raised). -/
structure Call where
  agent : String
  args : List Val
  output : Except String Obj

/-- The initial `workflow_results` dict (agno_video_workflow.py:35-44). -/
def initResults : Obj :=
  [("status", Val.str "in_progress"),
   ("phases", Val.dict
     [("restaurant_data", Val.dict [("completed", Val.bool false)]),
      ("menu_analysis", Val.dict [("completed", Val.bool false)]),
      ("content_creation", Val.dict [("completed", Val.bool false)]),
      ("video_production", Val.dict [("completed", Val.bool false)])]),
   ("results", Val.dict [])]

/-- `workflow_results["phases"][phase][key] = v`; both outer keys always
exist on the dicts this workflow builds. -/
def setPhase (wr : Obj) (phase key : String) (v : Val) : Obj :=
  updVal "phases" (fun phs =>
    match phs with
    | Val.dict phases =>
      Val.dict (updVal phase (fun ph =>
        match ph with
        | Val.dict p => Val.dict (insertObj p key v)
        | other => other) phases)
    | other => other) wr

/-- `workflow_results["results"][key] = v`; the `results` key always
exists on the dicts this workflow builds. -/
def setResult (wr : Obj) (key : String) (v : Val) : Obj :=
  updVal "results" (fun res =>
    match res with
    | Val.dict results => Val.dict (insertObj results key v)
    | other => other) wr

/-- `AgnoVideoWorkflow._handle_workflow_error` (agno_video_workflow.py:220-228). -/
def handle_workflow_error (phase : String) (error_data wr : Obj) : Obj :=
  let wr := insertObj wr "status" (Val.str "error")
  let wr := insertObj wr "failed_phase" (Val.str phase)
  let wr := insertObj wr "error" (getD error_data "error" (Val.str "Unknown error"))
  setPhase wr phase "status" (Val.str "failed")

/-- The `except` clause of `generate_promotional_video`
(agno_video_workflow.py:134-138). -/
def exceptReturn (wr : Obj) (e : String) : Obj :=
  insertObj (insertObj wr "status" (Val.str "error")) "error" (Val.str e)

/-- `AgnoVideoWorkflow._extract_website_url` (agno_video_workflow.py:202-209):
both branches return the empty string. -/
def extract_website_url (restaurant_data : Obj) : String :=
  if (lookup restaurant_data "agent_response").isSome then "" else ""

/-- `AgnoVideoWorkflow._extract_script_text` (agno_video_workflow.py:211-218). -/
def extract_script_text (script_data : Obj) : String :=
  match lookup script_data "script" with
  | some script_content => pyStr script_content
  | Option.none => "No script content available"

/-- The per-phase base time estimates (agno_video_workflow.py:233-238). -/
def phase_times : Obj :=
  [("restaurant_data", Val.int 45), ("menu_analysis", Val.int 60),
   ("content_creation", Val.int 90), ("video_production", Val.int 120)]

/-- `AgnoVideoWorkflow._estimate_total_time` (agno_video_workflow.py:230-246). -/
def estimate_total_time (_ : Obj) : Obj :=
  let total : Int := 45 + 60 + 90 + 120
  [("total_seconds", Val.int total),
   ("formatted", Val.str (toString (total / 60) ++ "m " ++ toString (total % 60) ++ "s")),
   ("phase_breakdown", Val.dict phase_times)]

/-- `AgnoVideoWorkflow.generate_promotional_video`
(agno_video_workflow.py:24-138), instrumented with the trace of agent
invocations. Status flags of the restaurant, content and production phases
are checked against `"success"`; the menu phase's status is not checked.
A missing `status` key raises `KeyError`, caught by the outer `try`. -/
def generate_promotional_video (ag : Agents) (google_maps_url : String)
    (video_style : String) : Obj × List Call :=
  let wr := setPhase initResults "restaurant_data" "status" (Val.str "in_progress")
  match ag.extract_restaurant_data google_maps_url with
  | .error e =>
    (exceptReturn wr e, [⟨"extract_restaurant_data", [Val.str google_maps_url], .error e⟩])
  | .ok rd0 =>
    let c1 : Call := ⟨"extract_restaurant_data", [Val.str google_maps_url], .ok rd0⟩
    match lookup rd0 "status" with
    | Option.none => (exceptReturn wr "KeyError: status", [c1])
    | some st1 =>
      if !isStr st1 "success" then
        (handle_workflow_error "restaurant_data" rd0 wr, [c1])
      else
        match ag.analyze_restaurant_characteristics rd0 with
        | .error e =>
          (exceptReturn wr e, [c1, ⟨"analyze_restaurant_characteristics", [Val.dict rd0], .error e⟩])
        | .ok restaurant_analysis =>
          let c2 : Call := ⟨"analyze_restaurant_characteristics", [Val.dict rd0], .ok restaurant_analysis⟩
          let restaurant_data := insertObj rd0 "analysis" (Val.dict restaurant_analysis)
          let wr := setResult wr "restaurant_data" (Val.dict restaurant_data)
          let wr := setPhase wr "restaurant_data" "completed" (Val.bool true)
          let wr := setPhase wr "restaurant_data" "status" (Val.str "completed")
          let wr := setPhase wr "menu_analysis" "status" (Val.str "in_progress")
          let website_url := extract_website_url restaurant_data
          match ag.extract_menu_data website_url with
          | .error e =>
            (exceptReturn wr e, [c1, c2, ⟨"extract_menu_data", [Val.str website_url], .error e⟩])
          | .ok md0 =>
            let c3 : Call := ⟨"extract_menu_data", [Val.str website_url], .ok md0⟩
            match ag.recommend_featured_items md0 restaurant_data with
            | .error e =>
              (exceptReturn wr e, [c1, c2, c3,
                ⟨"recommend_featured_items", [Val.dict md0, Val.dict restaurant_data], .error e⟩])
            | .ok featured_items =>
              let c4 : Call := ⟨"recommend_featured_items",
                [Val.dict md0, Val.dict restaurant_data], .ok featured_items⟩
              let menu_data := insertObj md0 "featured_items" (Val.dict featured_items)
              let wr := setResult wr "menu_data" (Val.dict menu_data)
              let wr := setPhase wr "menu_analysis" "completed" (Val.bool true)
              let wr := setPhase wr "menu_analysis" "status" (Val.str "completed")
              let wr := setPhase wr "content_creation" "status" (Val.str "in_progress")
              match ag.generate_video_script restaurant_data menu_data video_style with
              | .error e =>
                (exceptReturn wr e, [c1, c2, c3, c4,
                  ⟨"generate_video_script",
                   [Val.dict restaurant_data, Val.dict menu_data, Val.str video_style], .error e⟩])
              | .ok sd0 =>
                let c5 : Call := ⟨"generate_video_script",
                  [Val.dict restaurant_data, Val.dict menu_data, Val.str video_style], .ok sd0⟩
                match lookup sd0 "status" with
                | Option.none => (exceptReturn wr "KeyError: status", [c1, c2, c3, c4, c5])
                | some st3 =>
                  if !isStr st3 "success" then
                    (handle_workflow_error "content_creation" sd0 wr, [c1, c2, c3, c4, c5])
                  else
                    match ag.create_social_media_content restaurant_data with
                    | .error e =>
                      (exceptReturn wr e, [c1, c2, c3, c4, c5,
                        ⟨"create_social_media_content", [Val.dict restaurant_data], .error e⟩])
                    | .ok social_content =>
                      let c6 : Call := ⟨"create_social_media_content",
                        [Val.dict restaurant_data], .ok social_content⟩
                      let script_data := insertObj sd0 "social_content" (Val.dict social_content)
                      let wr := setResult wr "content_data" (Val.dict script_data)
                      let wr := setPhase wr "content_creation" "completed" (Val.bool true)
                      let wr := setPhase wr "content_creation" "status" (Val.str "completed")
                      let wr := setPhase wr "video_production" "status" (Val.str "in_progress")
                      match ag.plan_video_production script_data restaurant_data with
                      | .error e =>
                        (exceptReturn wr e, [c1, c2, c3, c4, c5, c6,
                          ⟨"plan_video_production",
                           [Val.dict script_data, Val.dict restaurant_data], .error e⟩])
                      | .ok pp0 =>
                        let c7 : Call := ⟨"plan_video_production",
                          [Val.dict script_data, Val.dict restaurant_data], .ok pp0⟩
                        match lookup pp0 "status" with
                        | Option.none =>
                          (exceptReturn wr "KeyError: status", [c1, c2, c3, c4, c5, c6, c7])
                        | some st4 =>
                          if !isStr st4 "success" then
                            (handle_workflow_error "video_production" pp0 wr,
                              [c1, c2, c3, c4, c5, c6, c7])
                          else
                            let script_text := extract_script_text script_data
                            match ag.prepare_voiceover_generation script_text video_style with
                            | .error e =>
                              (exceptReturn wr e, [c1, c2, c3, c4, c5, c6, c7,
                                ⟨"prepare_voiceover_generation",
                                 [Val.str script_text, Val.str video_style], .error e⟩])
                            | .ok voiceover_plan =>
                              let c8 : Call := ⟨"prepare_voiceover_generation",
                                [Val.str script_text, Val.str video_style], .ok voiceover_plan⟩
                              let pp1 := insertObj pp0 "voiceover" (Val.dict voiceover_plan)
                              let summary_input : Obj :=
                                [("restaurant_data", Val.dict restaurant_data),
                                 ("menu_data", Val.dict menu_data),
                                 ("script_data", Val.dict script_data),
                                 ("production_plan", Val.dict pp1)]
                              match ag.generate_production_summary summary_input with
                              | .error e =>
                                (exceptReturn wr e, [c1, c2, c3, c4, c5, c6, c7, c8,
                                  ⟨"generate_production_summary", [Val.dict summary_input], .error e⟩])
                              | .ok production_summary =>
                                let c9 : Call := ⟨"generate_production_summary",
                                  [Val.dict summary_input], .ok production_summary⟩
                                let production_plan :=
                                  insertObj pp1 "summary" (Val.dict production_summary)
                                let wr := setResult wr "video_production" (Val.dict production_plan)
                                let wr := setPhase wr "video_production" "completed" (Val.bool true)
                                let wr := setPhase wr "video_production" "status" (Val.str "completed")
                                let wr := insertObj wr "status" (Val.str "completed")
                                let wr := insertObj wr "completion_time"
                                  (Val.dict (estimate_total_time wr))
                                (wr, [c1, c2, c3, c4, c5, c6, c7, c8, c9])

/-- The canonical order of the agent invocations of
`generate_promotional_video`, grouped by phase: restaurant data (calls 1-2),
menu analysis (3-4), content creation (5-6), video production (7-9). -/
def canonicalCalls : List String :=
  ["extract_restaurant_data", "analyze_restaurant_characteristics",
   "extract_menu_data", "recommend_featured_items",
   "generate_video_script", "create_social_media_content",
   "plan_video_production", "prepare_voiceover_generation",
   "generate_production_summary"]

end AgnoVideoWorkflow

/-- One step of an Agno `Workflow` as configured by
`video_generation_workflow.py`: its name and the agent it binds. -/
structure WorkflowStep where
  name : String
  agent : String

/-- `create_video_generation_workflow` (video_generation_workflow.py:10-83):
the `steps` list of the constructed Agno workflow, in configured order. The
Agno `Workflow` runtime itself is an external collaborator; only the step
configuration is the repository's code. -/
def create_video_generation_workflow : List WorkflowStep :=
  [⟨"restaurant_analysis", "restaurant_agent"⟩,
   ⟨"menu_analysis", "menu_agent"⟩,
   ⟨"content_creation", "content_creator_agent"⟩,
   ⟨"video_production", "video_producer_agent"⟩]

namespace MenuExtractorAgent

/-- The headless-browser scraper `_extract_from_website`
(menu_extractor.py:81-117) as an oracle: it returns the structured
category list on success, `None` when its `try` caught an exception, and
may return an empty list when no menu elements matched. -/
structure Oracles where
  extract_from_website : Val → Val

/-- `_extract_from_pdf` (menu_extractor.py:119-145): every path returns
`None` — the success path is `return None` pending PDF OCR, and the
`except` clause also returns `None`. -/
def extract_from_pdf (_ : Val) : Val := Val.null

/-- `_generate_fallback_menu` (menu_extractor.py:239-266): the fixed
sample menu; the `restaurant_name` argument is ignored by the body. -/
def generate_fallback_menu (_ : Val) : List Val :=
  [Val.dict [("category", Val.str "Starters"),
     ("items", Val.list
       [Val.dict [("name", Val.str "House Salad"), ("price", Val.str "$8"),
          ("description", Val.str "Fresh mixed greens with seasonal vegetables")],
        Val.dict [("name", Val.str "Soup of the Day"), ("price", Val.str "$6"),
          ("description", Val.str "Chef\x27s daily selection")]])],
   Val.dict [("category", Val.str "Main Courses"),
     ("items", Val.list
       [Val.dict [("name", Val.str "Grilled Chicken"), ("price", Val.str "$18"),
          ("description", Val.str "Herb-seasoned chicken breast with vegetables")],
        Val.dict [("name", Val.str "Pan-Seared Salmon"), ("price", Val.str "$22"),
          ("description", Val.str "Fresh Atlantic salmon with lemon butter sauce")],
        Val.dict [("name", Val.str "Pasta Primavera"), ("price", Val.str "$16"),
          ("description", Val.str "Seasonal vegetables with house-made pasta")]])],
   Val.dict [("category", Val.str "Desserts"),
     ("items", Val.list
       [Val.dict [("name", Val.str "Chocolate Cake"), ("price", Val.str "$8"),
          ("description", Val.str "Rich chocolate layer cake")],
        Val.dict [("name", Val.str "Seasonal Fruit Tart"), ("price", Val.str "$7"),
          ("description", Val.str "Fresh fruit with pastry cream")]])]]

/-- `MenuExtractorAgent.run` (menu_extractor.py:16-79): validates input,
tries website extraction when the website is truthy, then PDF extraction,
and falls back to the sample menu when no method produced a truthy menu. -/
def run (o : Oracles) (input : Obj) : Except String Obj :=
  match BaseAgent.validate_input input ["website", "restaurant_name"] with
  | .error e => .error e
  | .ok _ =>
    match lookup input "website", lookup input "restaurant_name" with
    | some website, some restaurant_name =>
      let step1 : Val × String :=
        if pyTruthy website then
          let m1 := o.extract_from_website website
          if pyTruthy m1 then (m1, "website")
          else
            let m2 := extract_from_pdf website
            if pyTruthy m2 then (m2, "pdf") else (m2, "fallback")
        else (Val.null, "fallback")
      let menu_data :=
        if pyTruthy step1.1 then step1.1
        else Val.list (generate_fallback_menu restaurant_name)
      Except.ok [("menu", menu_data), ("extraction_method", Val.str step1.2)]
    | _, _ => .error "KeyError"

end MenuExtractorAgent

namespace MapParserAgent

/-- `_fallback_scraping` (MapParserAgent source lines 137-150): the fixed placeholder
place-details record (web-scraping fallback is a TODO). -/
def fallback_scraping (_ : Obj) : Obj :=
  [("restaurant_name", Val.str "Restaurant Name"), ("address", Val.str "123 Main St"),
   ("website", Val.str ""), ("phone", Val.str ""), ("rating", Val.rat 0),
   ("reviews_count", Val.int 0), ("place_id", Val.str "")]

/-- External collaborators of `MapParserAgent`: `places_api` is the body
of the `try` block of `_get_place_details` (MapParserAgent source lines 87-130) — the
Places text/nearby search plus the detail fetch, collapsed into one
external-call oracle — and `extract_place_info` is the URL-regex helper
`_extract_place_info` (MapParserAgent source lines 59-81). -/
structure Oracles where
  places_api : Obj → Except String Obj
  extract_place_info : String → Option Obj

/-- `_get_place_details` (MapParserAgent source lines 83-135): any exception raised by
the Places API interaction (including the internal
`ValueError("Restaurant not found")`) is caught and answered by
`_fallback_scraping`. -/
def get_place_details (o : Oracles) (place_info : Obj) : Obj :=
  match o.places_api place_info with
  | .ok details => details
  | .error _ => fallback_scraping place_info

/-- `MapParserAgent.run` (MapParserAgent source lines 19-57). -/
def run (o : Oracles) (input : Obj) : Except String Obj :=
  match BaseAgent.validate_input input ["google_maps_url"] with
  | .error e => .error e
  | .ok _ =>
    match lookup input "google_maps_url" with
    | some (Val.str url) =>
      match o.extract_place_info url with
      | Option.none => .error "Could not extract place information from URL"
      | some place_info => .ok (get_place_details o place_info)
    | some _ => .error "TypeError"
    | Option.none => .error "KeyError: google_maps_url"

end MapParserAgent

namespace ScriptGeneratorAgent

/-- The style prompt table with its default
(script_generator.py:83-89): `style_prompts.get(style, "welcoming and appetizing")`. -/
def style_description (style : Val) : String :=
  if isStr style "luxury" then "elegant, sophisticated, premium dining experience"
  else if isStr style "casual" then "friendly, welcoming, comfort food atmosphere"
  else if isStr style "street_food" then "authentic, vibrant, bold flavors"
  else "welcoming and appetizing"

/-- The body of the item loop of `_extract_menu_highlights`
(script_generator.py:140-147): zero or one highlight per item; a non-dict
item raises `AttributeError` at `item.get`. -/
def item_highlight (item : Val) : Except String (List String) :=
  match item with
  | Val.dict d =>
    let name := getD d "name" (Val.str "")
    let description := getD d "description" (Val.str "")
    Except.ok (if pyTruthy name then
      [if pyTruthy description then pyStr name ++ ": " ++ pyStr description else pyStr name]
      else [])
  | _ => Except.error "AttributeError"

/-- The body of the category loop of `_extract_menu_highlights`
(script_generator.py:135-147): first 2 items of each category. -/
def category_highlights (category : Val) : Except String (List String) :=
  match category with
  | Val.dict c =>
    match getD c "items" (Val.list []) with
    | Val.list items => do
      let hs ← (items.take 2).mapM item_highlight
      return hs.flatten
    | _ => Except.error "TypeError"
  | _ => Except.error "AttributeError"

/-- `_extract_menu_highlights` (script_generator.py:129-149):
`"\n".join(highlights[:8])`. -/
def extract_menu_highlights (menu : Val) : Except String String :=
  match menu with
  | Val.list categories => do
    let hs ← categories.mapM category_highlights
    return String.intercalate "\n" (hs.flatten.take 8)
  | _ => Except.error "TypeError"

/-- The prompt f-string of `_generate_script` (script_generator.py:91-108),
with the Python indentation whitespace dropped. -/
def script_prompt (restaurant_name : Val) (menu_highlights : String)
    (style : Val) (duration : Val) : String :=
  let style_d := style_description style
  "Create a " ++ pyStr duration ++ "-second promotional video script for " ++
    pyStr restaurant_name ++ ".\n\nStyle: " ++ style_d ++
    "\n\nMenu highlights:\n" ++ menu_highlights ++
    "\n\nRequirements:\n- Create engaging, " ++ style_d ++
    " copy\n- Highlight the best menu items\n- Include a clear call-to-action\n" ++
    "- Write for voiceover (natural speech patterns)\n- Keep within " ++
    pyStr duration ++ " seconds when read aloud\n" ++
    "- Focus on what makes this restaurant special\n\n" ++
    "Format the response as a natural, flowing script suitable for voiceover."

/-- `_generate_fallback_script` (script_generator.py:199-214):
`style_templates.get(style, style_templates["casual"])`. -/
def generate_fallback_script (restaurant_name : Val) (menu_highlights : String)
    (style : Val) : Obj :=
  let luxury_t := "Experience culinary excellence at " ++ pyStr restaurant_name ++
    ". Our chef-crafted dishes featuring " ++ menu_highlights ++
    " deliver an unforgettable fine dining experience. Reserve your table today for an evening of exceptional cuisine."
  let casual_t := "Welcome to " ++ pyStr restaurant_name ++
    ", where great food brings people together. Enjoy our delicious " ++ menu_highlights ++
    " in a warm, friendly atmosphere. Come hungry, leave happy. Visit us today!"
  let street_t := "Taste the authentic flavors at " ++ pyStr restaurant_name ++
    "! Our bold, fresh " ++ menu_highlights ++
    " pack incredible taste into every bite. Real food, real flavor, real good. Stop by and taste the difference!"
  let script :=
    if isStr style "luxury" then luxury_t
    else if isStr style "casual" then casual_t
    else if isStr style "street_food" then street_t
    else casual_t
  [("script", Val.str script)]

/-- `_generate_script` (script_generator.py:74-127): highlights extraction
happens before the `try`, so its exceptions propagate; a failing LLM call
is caught and answered by the fallback script. The LLM oracle maps the
user prompt to the completion content. -/
def generate_script (llm : String → Except String String) (restaurant_name : Val)
    (menu : Val) (style : Val) (duration : Val) : Except String Obj := do
  let menu_highlights ← extract_menu_highlights menu
  let prompt := script_prompt restaurant_name menu_highlights style duration
  match llm prompt with
  | .ok content => return [("script", Val.str content.trim)]
  | .error _ => return generate_fallback_script restaurant_name menu_highlights style

/-- Python `script.split(".")` on the character list. -/
def pySplitDot : List Char → List (List Char)
  | [] => [[]]
  | c :: rest =>
    if c = '.' then [] :: pySplitDot rest
    else match pySplitDot rest with
      | seg :: segs => (c :: seg) :: segs
      | [] => [[c]]

/-- Python `s.strip()` on the character list. -/
def pyStrip (s : List Char) : List Char :=
  ((s.dropWhile Char.isWhitespace).reverse.dropWhile Char.isWhitespace).reverse

/-- The sentence list of `_create_scenes` (script_generator.py:159):
`[s.strip() + "." for s in script.split(".") if s.strip()]`. -/
def sentencesOf (script : String) : List String :=
  (pySplitDot script.data).filterMap (fun s =>
    let t := pyStrip s
    if t.isEmpty then Option.none else some (String.mk (t ++ ['.'])))

/-- Boolean prefix test on character lists. -/
def charsHavePre : List Char → List Char → Bool
  | [], _ => true
  | _ :: _, [] => false
  | a :: as, b :: bs => a == b && charsHavePre as bs

/-- Boolean contiguous-occurrence test on character lists. -/
def charsHaveInf (pat : List Char) : List Char → Bool
  | [] => charsHavePre pat []
  | c :: rest => charsHavePre pat (c :: rest) || charsHaveInf pat rest

/-- Python `pat in s` for strings. -/
def strContains (s pat : String) : Bool := charsHaveInf pat.data s.data

/-- `_generate_image_prompt` (script_generator.py:181-197); `text.lower()`
is charwise ASCII lowercasing. -/
def generate_image_prompt (text : String) (scene_index : Nat) : String :=
  let text_lower := String.mk (text.data.map Char.toLower)
  if scene_index == 0 || strContains text_lower "welcome" || strContains text_lower "visit" then
    "restaurant exterior, welcoming entrance, warm lighting"
  else if strContains text_lower "menu" || strContains text_lower "dish" ||
      (["pasta", "pizza", "burger", "salad", "chicken", "fish"].any
        (fun food => strContains text_lower food)) then
    "beautifully plated signature dish, professional food photography"
  else if strContains text_lower "atmosphere" || strContains text_lower "dining" then
    "elegant restaurant interior, cozy dining atmosphere"
  else if strContains text_lower "fresh" || strContains text_lower "ingredient" then
    "fresh ingredients, chef preparing food in kitchen"
  else "restaurant dining room, happy customers enjoying meal"

/-- The scene construction of `_create_scenes` (script_generator.py:151-179)
on a script string and an exact (rational) duration: one scene per
sentence, each of duration `total_duration / num_scenes`, guarded by
`if num_scenes > 0 else total_duration`. -/
def create_scenes_core (script : String) (total_duration : ℚ) : List Obj :=
  let sentences := sentencesOf script
  let num_scenes := sentences.length
  let scene_duration :=
    if num_scenes > 0 then total_duration / (num_scenes : ℚ) else total_duration
  sentences.enum.map (fun p =>
    [("text", Val.str p.2), ("duration", Val.rat scene_duration),
     ("image_prompt", Val.str (generate_image_prompt p.2 p.1)),
     ("voiceover_text", Val.str p.2)])

/-- Python numeric coercion of a duration value (`bool` is an `int`). -/
def valToRat : Val → Option ℚ
  | .int n => some (n : ℚ)
  | .rat q => some q
  | .bool b => some (if b then 1 else 0)
  | _ => Option.none

/-- `_create_scenes` (script_generator.py:151-179) as invoked on the dict
returned by `_generate_script`: a non-string `script` value raises at
`.split`, a non-numeric duration at the division. -/
def create_scenes (script_data : Obj) (total_duration : Val) :
    Except String (List Obj) :=
  match lookup script_data "script" with
  | some (Val.str script) =>
    match valToRat total_duration with
    | some d => Except.ok (create_scenes_core script d)
    | Option.none => Except.error "TypeError"
  | some _ => Except.error "AttributeError"
  | Option.none => Except.error "KeyError: script"

/-- `ScriptGeneratorAgent.run` (script_generator.py:14-72). -/
def run (llm : String → Except String String) (input : Obj) : Except String Obj :=
  match BaseAgent.validate_input input ["restaurant_name", "menu", "style"] with
  | .error e => .error e
  | .ok _ =>
    match lookup input "restaurant_name", lookup input "menu", lookup input "style" with
    | some restaurant_name, some menu, some style =>
      let duration := getD input "duration" (Val.int 30)
      match generate_script llm restaurant_name menu style duration with
      | .error e => .error e
      | .ok script_data =>
        match create_scenes script_data duration with
        | .error e => .error e
        | .ok scenes =>
          match lookup script_data "script" with
          | some s =>
            Except.ok [("script", s), ("scenes", Val.list (scenes.map Val.dict)),
                       ("total_duration", duration), ("style", style)]
          | Option.none => .error "KeyError: script"
    | _, _, _ => .error "KeyError"

end ScriptGeneratorAgent

namespace VideoGeneratorAgent

/-- The external production pipeline of `VideoGeneratorAgent`
(video_generator.py:54-69), one oracle per helper. -/
structure Oracles where
  generate_voiceover : Val → Except String Val
  generate_scene_images : Val → Except String Val
  assemble_video : Val → Val → Val → Val → Except String Val
  generate_thumbnail : Val → Except String Val
  get_video_metadata : Val → Except String Obj

/-- `VideoGeneratorAgent.run` (video_generator.py:20-79). -/
def run (o : Oracles) (input : Obj) : Except String Obj :=
  match BaseAgent.validate_input input ["script", "scenes", "restaurant_name"] with
  | .error e => .error e
  | .ok _ =>
    match lookup input "script", lookup input "scenes", lookup input "restaurant_name" with
    | some script, some scenes, some restaurant_name =>
      let _style := getD input "style" (Val.str "casual")
      (do
        let audio_path ← o.generate_voiceover script
        let image_paths ← o.generate_scene_images scenes
        let video_path ← o.assemble_video audio_path image_paths scenes restaurant_name
        let thumbnail_path ← o.generate_thumbnail video_path
        let metadata ← o.get_video_metadata video_path
        match lookup metadata "duration", lookup metadata "file_size",
              lookup metadata "resolution" with
        | some dur, some fs, some res =>
          Except.ok [("video_path", video_path), ("thumbnail_path", thumbnail_path),
                     ("duration", dur), ("file_size", fs), ("resolution", res)]
        | _, _, _ => Except.error "KeyError: metadata field")
    | _, _, _ => .error "KeyError"

end VideoGeneratorAgent

/-! ### Concrete fixtures

Closed agent behaviours used to evaluate the workflows at concrete inputs.
The Agno fixtures mirror the dicts the real agents return: the status-dict
shapes of `restaurant_agent.py` / `menu_agent.py` /
`content_agent.py` / `video_agent.py`; in particular
`testAgnoMenuSkipped` is the literal dict `MenuAgent.extract_menu_data`
returns for an empty website URL (menu_agent.py:54-59). -/

def testRestaurantInfo : Obj :=
  [("restaurant_name", Val.str "Testaurant"), ("address", Val.str "1 Test St"),
   ("website", Val.str "https://testaurant.example")]

def testMenuData : Obj :=
  [("menu", Val.list [Val.dict
     [("category", Val.str "Mains"),
      ("items", Val.list [Val.dict
        [("name", Val.str "Dish"), ("price", Val.str "$5"),
         ("description", Val.str "Tasty")]])]]),
   ("extraction_method", Val.str "website")]

def testScriptData : Obj :=
  [("script", Val.str "Welcome in. Eat well."),
   ("scenes", Val.list []), ("style", Val.str "casual")]

def testVideoResult : Obj :=
  [("video_path", Val.str "out/video.mp4"), ("thumbnail_path", Val.str "out/thumb.jpg"),
   ("duration", Val.rat 30), ("file_size", Val.int 1000), ("resolution", Val.str "1080x1920")]

/-- All four `VideoWorkflow` agents succeed with fixed outputs. -/
def testVWAgents : VideoWorkflow.Agents :=
  ⟨fun _ => .ok testRestaurantInfo, fun _ => .ok testMenuData,
   fun _ => .ok testScriptData, fun _ => .ok testVideoResult⟩

/-- Like `testVWAgents` but the menu extractor raises. -/
def testVWAgentsMenuRaises : VideoWorkflow.Agents :=
  ⟨fun _ => .ok testRestaurantInfo, fun _ => .error "boom",
   fun _ => .ok testScriptData, fun _ => .ok testVideoResult⟩

def testVWInput : Obj := [("google_maps_url", Val.str "https://maps.example/place/Testaurant/")]

def testAgnoRestaurantData : Obj :=
  [("status", Val.str "success"), ("agent_response", Val.str "structured restaurant data"),
   ("data_extracted", Val.bool true)]

def testAgnoAnalysis : Obj :=
  [("status", Val.str "success"), ("analysis", Val.str "casual spot"),
   ("recommendations_provided", Val.bool true)]

def testAgnoMenuSkipped : Obj :=
  [("status", Val.str "skipped"),
   ("message", Val.str "No website URL provided - will focus on restaurant information instead"),
   ("menu_extracted", Val.bool false)]

def testAgnoFeatured : Obj :=
  [("status", Val.str "success"), ("recommendations", Val.str "feature the special"),
   ("featured_items_selected", Val.bool true)]

def testAgnoScript : Obj :=
  [("status", Val.str "success"), ("script", Val.str "A fine script.")]

def testAgnoSocial : Obj :=
  [("status", Val.str "success"), ("content", Val.str "post")]

def testAgnoPlan : Obj :=
  [("status", Val.str "success"), ("production_plan", Val.str "plan")]

def testAgnoVoice : Obj :=
  [("status", Val.str "success"), ("voiceover_ready", Val.bool true)]

def testAgnoSummary : Obj :=
  [("status", Val.str "success"), ("summary", Val.str "done")]

/-- Every Agno agent call succeeds; the menu phase reports status
`"skipped"` (the real behaviour for an empty website URL). -/
def testAgnoAgents : AgnoVideoWorkflow.Agents :=
  ⟨fun _ => .ok testAgnoRestaurantData, fun _ => .ok testAgnoAnalysis,
   fun _ => .ok testAgnoMenuSkipped, fun _ _ => .ok testAgnoFeatured,
   fun _ _ _ => .ok testAgnoScript, fun _ => .ok testAgnoSocial,
   fun _ _ => .ok testAgnoPlan, fun _ _ => .ok testAgnoVoice,
   fun _ => .ok testAgnoSummary⟩

/-- Like `testAgnoAgents` but restaurant extraction reports failure. -/
def testAgnoAgentsRestaurantFails : AgnoVideoWorkflow.Agents :=
  ⟨fun _ => .ok [("status", Val.str "error"), ("error", Val.str "lookup failed"),
                 ("data_extracted", Val.bool false)],
   fun _ => .ok testAgnoAnalysis, fun _ => .ok testAgnoMenuSkipped,
   fun _ _ => .ok testAgnoFeatured, fun _ _ _ => .ok testAgnoScript,
   fun _ => .ok testAgnoSocial, fun _ _ => .ok testAgnoPlan,
   fun _ _ => .ok testAgnoVoice, fun _ => .ok testAgnoSummary⟩

/-- A menu-extractor website oracle that always fails (returns `None`). -/
def testMenuOraclesNone : MenuExtractorAgent.Oracles := ⟨fun _ => Val.null⟩

/-- A Places client whose API interaction always raises. -/
def testMapOraclesApiFails : MapParserAgent.Oracles :=
  ⟨fun _ => .error "REQUEST_DENIED", fun _ => some [("query", Val.str "Testaurant")]⟩

/-- An LLM oracle that always raises. -/
def testLLMFails : String → Except String String := fun _ => .error "RateLimitError"

/-- A one-category, one-item menu value. -/
def testMenuVal : Val :=
  Val.list [Val.dict
    [("category", Val.str "Mains"),
     ("items", Val.list [Val.dict
       [("name", Val.str "Dish"), ("price", Val.str "$5"),
        ("description", Val.str "Tasty")]])]]

/-- Script-generator input with an unknown style. -/
def testScriptInputTrendy : Obj :=
  [("restaurant_name", Val.str "Testaurant"), ("address", Val.str "1 Test St"),
   ("menu", testMenuVal),
   ("style", Val.str "trendy"), ("duration", Val.int 20)]

/-- Video-generator oracles that always succeed with fixed values. -/
def testVideoOracles : VideoGeneratorAgent.Oracles :=
  ⟨fun _ => .ok (Val.str "tmp/voice.mp3"), fun _ => .ok (Val.list [Val.str "tmp/scene0.jpg"]),
   fun _ _ _ _ => .ok (Val.str "out/video.mp4"), fun _ => .ok (Val.str "out/thumb.jpg"),
   fun _ => .ok [("duration", Val.rat 30), ("file_size", Val.int 1000),
                 ("resolution", Val.str "1080x1920")]⟩

/-- The possible shapes of a `VideoWorkflow.run` trace: a (possibly empty)
initial segment of the four stages in order, each invoked at most once,
with each stage's input built from the previous stage's output exactly as
`run` builds it. -/
def vwChainShape (input : Obj) (tr : List VideoWorkflow.Call) : Prop :=
  tr = [] ∨
  ∃ url c1, lookup input "google_maps_url" = some url ∧
    c1.agent = "map\x5fparser" ∧ c1.input = VideoWorkflow.mapInput url ∧
    (tr = [c1] ∨
     ∃ ri c2, c1.output = .ok ri ∧
       c2.agent = "menu_extractor" ∧ c2.input = VideoWorkflow.menuInput ri ∧
       (tr = [c1, c2] ∨
        ∃ md rname menu c3, c2.output = .ok md ∧
          lookup ri "restaurant_name" = some rname ∧ lookup md "menu" = some menu ∧
          c3.agent = "script_generator" ∧
          c3.input = VideoWorkflow.scriptInput input ri rname menu ∧
          (tr = [c1, c2, c3] ∨
           ∃ sd s sc st c4, c3.output = .ok sd ∧
             lookup sd "script" = some s ∧ lookup sd "scenes" = some sc ∧
             lookup sd "style" = some st ∧
             c4.agent = "video_generator" ∧
             c4.input = VideoWorkflow.videoInput s sc rname st ∧
             tr = [c1, c2, c3, c4])))

/-! ### Helper lemmas -/

theorem extract_website_url_blank (restaurant_data : Obj) :
    AgnoVideoWorkflow.extract_website_url restaurant_data = "" := by
  unfold AgnoVideoWorkflow.extract_website_url
  exact ite_self ""

/-! ### Claims -/

/-- C9: `VideoWorkflow.run_step` raises `ValueError("Unknown step: …")`
exactly when the step name is not one of the four known names; for a known
name it returns exactly that single agent's `run` output (errors included),
invoking no other agent. -/
theorem C9_run_step_dispatch :
    (∀ (ag : VideoWorkflow.Agents) (input : Obj) (step : String),
       step ∉ ["map\x5fparser", "menu_extractor", "script_generator", "video_generator"] →
       VideoWorkflow.run_step ag step input =
         (.error ("Unknown step: " ++ step), []))
  ∧ (∀ (ag : VideoWorkflow.Agents) (input : Obj),
       VideoWorkflow.run_step ag "map\x5fparser" input =
         (ag.mapParser input, [⟨"map\x5fparser", input, ag.mapParser input⟩]))
  ∧ (∀ (ag : VideoWorkflow.Agents) (input : Obj),
       VideoWorkflow.run_step ag "menu_extractor" input =
         (ag.menu_extractor input, [⟨"menu_extractor", input, ag.menu_extractor input⟩]))
  ∧ (∀ (ag : VideoWorkflow.Agents) (input : Obj),
       VideoWorkflow.run_step ag "script_generator" input =
         (ag.script_generator input, [⟨"script_generator", input, ag.script_generator input⟩]))
  ∧ (∀ (ag : VideoWorkflow.Agents) (input : Obj),
       VideoWorkflow.run_step ag "video_generator" input =
         (ag.video_generator input, [⟨"video_generator", input, ag.video_generator input⟩])) := by
  refine ⟨?_, ?_, ?_, ?_, ?_⟩
  · intro ag input step h
    simp only [List.mem_cons, List.not_mem_nil, or_false, not_or] at h
    obtain ⟨h1, h2, h3, h4⟩ := h
    simp [VideoWorkflow.run_step, h1, h2, h3, h4]
  all_goals intro ag input
  all_goals simp [VideoWorkflow.run_step]

/-- Witness for C9 at the unknown step name `"frobnicate"`. -/
theorem C9_run_step_dispatch_witness :
    VideoWorkflow.run_step testVWAgents "frobnicate" testVWInput =
      (.error ("Unknown step: " ++ "frobnicate"), []) :=
  C9_run_step_dispatch.1 testVWAgents testVWInput "frobnicate" (by decide)

/-- C5: `BaseAgent.validate_input` raises `ValueError` iff some required
field is missing from the input (and returns normally otherwise — it is a
pure check, so the input is trivially left unchanged), and each of the four
agents' `run` methods front-loads this check on its required fields: when
validation fails, `run` propagates exactly that error, for every behaviour
of the external oracles (hence before doing any work). -/
theorem C5_validation_required_key_present :
    (∀ (input_data : Obj) (required_fields : List String),
       (∃ e, BaseAgent.validate_input input_data required_fields = .error e) ↔
       ∃ f ∈ required_fields, lookup input_data f = Option.none)
  ∧ (∀ (input_data : Obj) (required_fields : List String),
       (∀ f ∈ required_fields, (lookup input_data f).isSome) →
       BaseAgent.validate_input input_data required_fields = .ok ())
  ∧ (∀ (o : MapParserAgent.Oracles) (input : Obj) (e : String),
       BaseAgent.validate_input input ["google_maps_url"] = .error e →
       MapParserAgent.run o input = .error e)
  ∧ (∀ (o : MenuExtractorAgent.Oracles) (input : Obj) (e : String),
       BaseAgent.validate_input input ["website", "restaurant_name"] = .error e →
       MenuExtractorAgent.run o input = .error e)
  ∧ (∀ (llm : String → Except String String) (input : Obj) (e : String),
       BaseAgent.validate_input input ["restaurant_name", "menu", "style"] = .error e →
       ScriptGeneratorAgent.run llm input = .error e)
  ∧ (∀ (o : VideoGeneratorAgent.Oracles) (input : Obj) (e : String),
       BaseAgent.validate_input input ["script", "scenes", "restaurant_name"] = .error e →
       VideoGeneratorAgent.run o input = .error e) := by
  refine ⟨?_, ?_, ?_, ?_, ?_, ?_⟩
  · intro input_data required_fields
    simp only [BaseAgent.validate_input]
    constructor
    · rintro ⟨e, he⟩
      by_cases h : (required_fields.filter
          (fun field => (lookup input_data field).isNone)).isEmpty
      · simp [h] at he
      · rw [Bool.not_eq_true, List.isEmpty_eq_false_iff_exists_mem] at h
        obtain ⟨f, hf⟩ := h
        rw [List.mem_filter] at hf
        exact ⟨f, hf.1, Option.isNone_iff_eq_none.mp hf.2⟩
    · rintro ⟨f, hf, hnone⟩
      have h : (required_fields.filter
          (fun field => (lookup input_data field).isNone)).isEmpty = false := by
        rw [List.isEmpty_eq_false_iff_exists_mem]
        exact ⟨f, List.mem_filter.mpr ⟨hf, by simp [hnone]⟩⟩
      exact ⟨_, by rw [h]; rfl⟩
  · intro input_data required_fields h
    have hfil : required_fields.filter
        (fun field => (lookup input_data field).isNone) = [] := by
      rw [List.filter_eq_nil_iff]
      intro f hf
      have hs := h f hf
      cases hl : lookup input_data f with
      | none => rw [hl] at hs; simp at hs
      | some v => simp [hl]
    simp [BaseAgent.validate_input, hfil]
  · intro o input e h
    simp [MapParserAgent.run, h]
  · intro o input e h
    simp [MenuExtractorAgent.run, h]
  · intro llm input e h
    simp [ScriptGeneratorAgent.run, h]
  · intro o input e h
    simp [VideoGeneratorAgent.run, h]

/-- Witness for C5 at an empty input dict: validation fails and the menu
extractor propagates that very error. -/
theorem C5_validation_required_key_present_witness :
    BaseAgent.validate_input [] ["website", "restaurant_name"] =
      .error "Missing required fields: [website, restaurant_name]"
  ∧ MenuExtractorAgent.run testMenuOraclesNone [] =
      .error "Missing required fields: [website, restaurant_name]" :=
  ⟨rfl, C5_validation_required_key_present.2.2.2.1 testMenuOraclesNone [] _ rfl⟩

/-- C4: agent failure recovery substitutes fixed fallback values: when the
website is empty, or (website truthy but) neither website extraction nor
PDF extraction produced a menu, `MenuExtractorAgent.run` returns the fixed
sample menu with `extraction_method = "fallback"` instead of raising; and
when the Places API interaction raises, `MapParserAgent._get_place_details`
returns the fixed placeholder place-details record. -/
theorem C4_fixed_fallback_values :
    (∀ (o : MenuExtractorAgent.Oracles) (input : Obj) (website restaurant_name : Val),
       lookup input "website" = some website →
       lookup input "restaurant_name" = some restaurant_name →
       (website = Val.str "" ∨
         (pyTruthy (o.extract_from_website website) = false ∧
          MenuExtractorAgent.extract_from_pdf website = Val.null)) →
       MenuExtractorAgent.run o input =
         .ok [("menu", Val.list (MenuExtractorAgent.generate_fallback_menu restaurant_name)),
              ("extraction_method", Val.str "fallback")])
  ∧ (∀ (o : MapParserAgent.Oracles) (place_info : Obj) (e : String),
       o.places_api place_info = .error e →
       MapParserAgent.get_place_details o place_info =
         MapParserAgent.fallback_scraping place_info) := by
  constructor
  · intro o input website restaurant_name hw hr hfb
    have hval : BaseAgent.validate_input input ["website", "restaurant_name"] = .ok () := by
      simp [BaseAgent.validate_input, hw, hr]
    have hnull : pyTruthy Val.null = false := rfl
    rcases hfb with rfl | ⟨hws, _⟩
    · have ht : pyTruthy (Val.str "") = false := rfl
      simp [MenuExtractorAgent.run, hval, hw, hr, ht, hnull]
    · by_cases ht : pyTruthy website
      · simp [MenuExtractorAgent.run, hval, hw, hr, ht, hws, hnull,
          MenuExtractorAgent.extract_from_pdf]
      · simp [MenuExtractorAgent.run, hval, hw, hr, ht, hnull]
  · intro o place_info e h
    simp [MapParserAgent.get_place_details, h]

/-- Witness for C4: an input whose website extraction yields `None`
produces the fallback menu, and a failing Places client produces the
placeholder record. -/
theorem C4_fixed_fallback_values_witness :
    MenuExtractorAgent.run testMenuOraclesNone
        [("website", Val.str "https://testaurant.example"),
         ("restaurant_name", Val.str "Testaurant")] =
      .ok [("menu", Val.list (MenuExtractorAgent.generate_fallback_menu (Val.str "Testaurant"))),
           ("extraction_method", Val.str "fallback")]
  ∧ MapParserAgent.get_place_details testMapOraclesApiFails [("query", Val.str "Testaurant")] =
      MapParserAgent.fallback_scraping [("query", Val.str "Testaurant")] :=
  ⟨C4_fixed_fallback_values.1 testMenuOraclesNone _ _ _ rfl rfl (Or.inr ⟨rfl, rfl⟩),
   C4_fixed_fallback_values.2 testMapOraclesApiFails _ "REQUEST_DENIED" rfl⟩

/-- C8: `_extract_website_url` returns the empty string for every
restaurant-data dict, so `generate_promotional_video` always invokes menu
extraction with an empty website URL. -/
theorem C8_menu_called_with_empty_website :
    (∀ (restaurant_data : Obj),
       AgnoVideoWorkflow.extract_website_url restaurant_data = "")
  ∧ (∀ (ag : AgnoVideoWorkflow.Agents) (url style : String)
       (c : AgnoVideoWorkflow.Call),
       c ∈ (AgnoVideoWorkflow.generate_promotional_video ag url style).2 →
       c.agent = "extract_menu_data" →
       c.args = [Val.str ""]) := by
  refine ⟨extract_website_url_blank, ?_⟩
  intro ag url style c hc hagent
  simp only [AgnoVideoWorkflow.generate_promotional_video] at hc
  repeat' split at hc
  all_goals simp only [List.mem_cons, List.not_mem_nil, or_false] at hc
  all_goals repeat' (rcases hc with rfl | hc)
  all_goals simp_all [extract_website_url_blank]

/-- Witness for C8: in the concrete successful run, the third recorded
call is the menu extraction and its argument is the empty string. -/
theorem C8_menu_called_with_empty_website_witness :
    (⟨"extract_menu_data", [Val.str ""], .ok testAgnoMenuSkipped⟩ : AgnoVideoWorkflow.Call)
      ∈ (AgnoVideoWorkflow.generate_promotional_video testAgnoAgents
          "https://maps.example/place/Testaurant/" "casual").2
  ∧ (⟨"extract_menu_data", [Val.str ""], .ok testAgnoMenuSkipped⟩ :
        AgnoVideoWorkflow.Call).args = [Val.str ""] := by
  have h : 2 < (AgnoVideoWorkflow.generate_promotional_video testAgnoAgents
      "https://maps.example/place/Testaurant/" "casual").2.length := by decide
  have hmem := List.get_mem (AgnoVideoWorkflow.generate_promotional_video testAgnoAgents
      "https://maps.example/place/Testaurant/" "casual").2 2 h
  have he : (AgnoVideoWorkflow.generate_promotional_video testAgnoAgents
        "https://maps.example/place/Testaurant/" "casual").2.get ⟨2, h⟩ =
      ⟨"extract_menu_data", [Val.str ""], .ok testAgnoMenuSkipped⟩ := rfl
  rw [he] at hmem
  exact ⟨hmem, C8_menu_called_with_empty_website.2 testAgnoAgents
    "https://maps.example/place/Testaurant/" "casual" _ hmem rfl⟩

/-- C7: script generation is an LLM call with a fixed fallback: under a
well-formed input (the three required keys present, extractable menu
highlights, numeric duration), `run` succeeds and returns the script, the
scene list, `total_duration` equal to the requested duration and the input
style; when the LLM call succeeds the script is the stripped completion,
when it fails the script dict is the fixed style template, and for a style
other than luxury / casual / street_food that template is the casual one. -/
theorem C7_script_llm_with_template_fallback :
    ∀ (llm : String → Except String String) (input : Obj)
      (restaurant_name menu style : Val) (mh : String) (dq : ℚ),
      lookup input "restaurant_name" = some restaurant_name →
      lookup input "menu" = some menu →
      lookup input "style" = some style →
      ScriptGeneratorAgent.extract_menu_highlights menu = .ok mh →
      ScriptGeneratorAgent.valToRat (getD input "duration" (Val.int 30)) = some dq →
      ∃ scr scenes,
        ScriptGeneratorAgent.run llm input =
          .ok [("script", Val.str scr), ("scenes", Val.list scenes),
               ("total_duration", getD input "duration" (Val.int 30)), ("style", style)]
        ∧ (∀ content, llm (ScriptGeneratorAgent.script_prompt restaurant_name mh style
              (getD input "duration" (Val.int 30))) = .ok content → scr = content.trim)
        ∧ (∀ pe, llm (ScriptGeneratorAgent.script_prompt restaurant_name mh style
              (getD input "duration" (Val.int 30))) = .error pe →
            [("script", Val.str scr)] =
              ScriptGeneratorAgent.generate_fallback_script restaurant_name mh style)
        ∧ (isStr style "luxury" = false → isStr style "casual" = false →
            isStr style "street_food" = false →
            ScriptGeneratorAgent.generate_fallback_script restaurant_name mh style =
              ScriptGeneratorAgent.generate_fallback_script restaurant_name mh
                (Val.str "casual")) := by
  intro llm input restaurant_name menu style mh dq h1 h2 h3 hmh hdq
  have hval : BaseAgent.validate_input input ["restaurant_name", "menu", "style"] = .ok () := by
    simp [BaseAgent.validate_input, h1, h2, h3]
  have hcl : isStr (Val.str "casual") "luxury" = false := rfl
  have hcc : isStr (Val.str "casual") "casual" = true := rfl
  cases hllm : llm (ScriptGeneratorAgent.script_prompt restaurant_name mh style
      (getD input "duration" (Val.int 30))) with
  | ok content =>
    refine ⟨content.trim,
      (ScriptGeneratorAgent.create_scenes_core content.trim dq).map Val.dict, ?_, ?_, ?_, ?_⟩
    · simp [ScriptGeneratorAgent.run, hval, h1, h2, h3, ScriptGeneratorAgent.generate_script,
        hmh, hllm, ScriptGeneratorAgent.create_scenes, hdq, lookup,
        Bind.bind, Except.bind, Except.instMonad, pure, Except.pure]
    · intro content2 h
      cases h
      rfl
    · intro pe h
      cases h
    · intro hl hc hs
      simp [ScriptGeneratorAgent.generate_fallback_script, hl, hc, hs, hcl, hcc]
  | error pe =>
    simp only [getD] at hllm hdq
    refine ⟨pyStr (getD (ScriptGeneratorAgent.generate_fallback_script restaurant_name mh style)
        "script" (Val.str "")),
      (ScriptGeneratorAgent.create_scenes_core
        (pyStr (getD (ScriptGeneratorAgent.generate_fallback_script restaurant_name mh style)
          "script" (Val.str ""))) dq).map Val.dict, ?_, ?_, ?_, ?_⟩
    · simp [ScriptGeneratorAgent.run, hval, h1, h2, h3, ScriptGeneratorAgent.generate_script,
        hmh, hllm, ScriptGeneratorAgent.create_scenes, hdq, lookup, getD, pyStr,
        ScriptGeneratorAgent.generate_fallback_script,
        Bind.bind, Except.bind, Except.instMonad, pure, Except.pure]
    · intro content h
      cases h
    · intro pe2 h
      simp [ScriptGeneratorAgent.generate_fallback_script, getD, lookup, pyStr]
    · intro hl hc hs
      simp [ScriptGeneratorAgent.generate_fallback_script, hl, hc, hs, hcl, hcc]

/-- Witness for C7: with a failing LLM and the unknown style `"trendy"`,
the run succeeds and the fallback equations hold. -/
theorem C7_script_llm_with_template_fallback_witness :
    ∃ scr scenes,
      ScriptGeneratorAgent.run testLLMFails testScriptInputTrendy =
        .ok [("script", Val.str scr), ("scenes", Val.list scenes),
             ("total_duration", getD testScriptInputTrendy "duration" (Val.int 30)),
             ("style", Val.str "trendy")]
      ∧ (∀ content, testLLMFails (ScriptGeneratorAgent.script_prompt (Val.str "Testaurant")
            "Dish: Tasty" (Val.str "trendy")
            (getD testScriptInputTrendy "duration" (Val.int 30))) = .ok content →
          scr = content.trim)
      ∧ (∀ pe, testLLMFails (ScriptGeneratorAgent.script_prompt (Val.str "Testaurant")
            "Dish: Tasty" (Val.str "trendy")
            (getD testScriptInputTrendy "duration" (Val.int 30))) = .error pe →
          [("script", Val.str scr)] =
            ScriptGeneratorAgent.generate_fallback_script (Val.str "Testaurant")
              "Dish: Tasty" (Val.str "trendy"))
      ∧ (isStr (Val.str "trendy") "luxury" = false →
          isStr (Val.str "trendy") "casual" = false →
          isStr (Val.str "trendy") "street_food" = false →
          ScriptGeneratorAgent.generate_fallback_script (Val.str "Testaurant")
              "Dish: Tasty" (Val.str "trendy") =
            ScriptGeneratorAgent.generate_fallback_script (Val.str "Testaurant")
              "Dish: Tasty" (Val.str "casual")) :=
  C7_script_llm_with_template_fallback testLLMFails testScriptInputTrendy
    (Val.str "Testaurant") testMenuVal (Val.str "trendy") "Dish: Tasty" 20
    rfl rfl rfl rfl rfl

theorem pySplitDot_ne_nil (l : List Char) : ScriptGeneratorAgent.pySplitDot l ≠ [] := by
  induction l with
  | nil => simp [ScriptGeneratorAgent.pySplitDot]
  | cons a rest ih =>
    unfold ScriptGeneratorAgent.pySplitDot
    by_cases ha : a = '.'
    · simp [ha]
    · rw [if_neg ha]
      cases hsplit : ScriptGeneratorAgent.pySplitDot rest with
      | nil => exact absurd hsplit ih
      | cons s ss => simp

theorem mem_pySplitDot_sub {l seg : List Char}
    (hseg : seg ∈ ScriptGeneratorAgent.pySplitDot l) : ∀ c ∈ seg, c ∈ l := by
  induction l generalizing seg with
  | nil =>
    simp only [ScriptGeneratorAgent.pySplitDot, List.mem_singleton] at hseg
    subst hseg
    simp
  | cons a rest ih =>
    unfold ScriptGeneratorAgent.pySplitDot at hseg
    by_cases ha : a = '.'
    · rw [if_pos ha] at hseg
      rcases List.mem_cons.mp hseg with rfl | hseg2
      · simp
      · exact fun c hc => List.mem_cons_of_mem a (ih hseg2 c hc)
    · rw [if_neg ha] at hseg
      cases hsplit : ScriptGeneratorAgent.pySplitDot rest with
      | nil =>
        rw [hsplit] at hseg
        rcases List.mem_singleton.mp hseg with rfl
        intro c hc
        rcases List.mem_singleton.mp hc with rfl
        exact List.mem_cons_self _ _
      | cons s ss =>
        rw [hsplit] at hseg
        rcases List.mem_cons.mp hseg with rfl | hseg2
        · intro c hc
          rcases List.mem_cons.mp hc with rfl | hc2
          · exact List.mem_cons_self _ _
          · exact List.mem_cons_of_mem a
              (ih (hsplit ▸ List.mem_cons_self s ss) c hc2)
        · intro c hc
          exact List.mem_cons_of_mem a
            (ih (hsplit ▸ List.mem_cons_of_mem s hseg2) c hc)

theorem pyStrip_of_all_whitespace {s : List Char}
    (h : ∀ c ∈ s, Char.isWhitespace c) : ScriptGeneratorAgent.pyStrip s = [] := by
  unfold ScriptGeneratorAgent.pyStrip
  rw [List.dropWhile_eq_nil_iff.mpr h]
  simp

/-- C10: `_create_scenes` builds one scene per non-empty stripped
period-separated segment of the script; every scene's `text` equals its
`voiceover_text` and is such a segment with a trailing period re-attached;
every scene's duration is the requested duration divided by the (then
positive) scene count, the division being reachable only when that count
is positive thanks to the `if num_scenes > 0` guard; an all-whitespace (in
particular empty) script yields no scenes at all. -/
theorem C10_scene_breakdown :
    (∀ (script : String) (d : ℚ),
       (ScriptGeneratorAgent.create_scenes_core script d).length =
         ((ScriptGeneratorAgent.pySplitDot script.data).filter
           (fun s => !(ScriptGeneratorAgent.pyStrip s).isEmpty)).length)
  ∧ (∀ (script : String) (d : ℚ) (scene : Obj),
       scene ∈ ScriptGeneratorAgent.create_scenes_core script d →
       0 < (ScriptGeneratorAgent.create_scenes_core script d).length
       ∧ lookup scene "text" = lookup scene "voiceover_text"
       ∧ (∃ seg ∈ ScriptGeneratorAgent.pySplitDot script.data,
            (ScriptGeneratorAgent.pyStrip seg).isEmpty = false ∧
            lookup scene "text" =
              some (Val.str (String.mk (ScriptGeneratorAgent.pyStrip seg ++ ['.']))))
       ∧ lookup scene "duration" =
           some (Val.rat (d /
             ((ScriptGeneratorAgent.create_scenes_core script d).length : ℚ))))
  ∧ (∀ (script : String) (d : ℚ),
       (∀ c ∈ script.data, c.isWhitespace) →
       ScriptGeneratorAgent.create_scenes_core script d = []) := by
  have hkey : ∀ (L : List (List Char)),
      (L.filterMap (fun s =>
        if (ScriptGeneratorAgent.pyStrip s).isEmpty then Option.none
        else some (String.mk (ScriptGeneratorAgent.pyStrip s ++ ['.'])))).length =
      (L.filter (fun s => !(ScriptGeneratorAgent.pyStrip s).isEmpty)).length := by
    intro L
    induction L with
    | nil => rfl
    | cons s rest ih =>
      simp only [List.isEmpty_iff] at ih
      by_cases h : ScriptGeneratorAgent.pyStrip s = []
      · simp [List.filterMap_cons, List.filter_cons, h, ih, List.isEmpty_iff]
      · simp [List.filterMap_cons, List.filter_cons, h, ih, List.isEmpty_iff]
  have hlen : ∀ (script : String) (d : ℚ),
      (ScriptGeneratorAgent.create_scenes_core script d).length =
        (ScriptGeneratorAgent.sentencesOf script).length := by
    intro script d
    simp [ScriptGeneratorAgent.create_scenes_core, List.enum_length]
  refine ⟨?_, ?_, ?_⟩
  · intro script d
    rw [hlen script d]
    simpa [ScriptGeneratorAgent.sentencesOf] using
      hkey (ScriptGeneratorAgent.pySplitDot script.data)
  · intro script d scene hmem
    unfold ScriptGeneratorAgent.create_scenes_core at hmem
    rw [List.mem_map] at hmem
    obtain ⟨p, hp, rfl⟩ := hmem
    have hp2 : p.2 ∈ ScriptGeneratorAgent.sentencesOf script := by
      rw [List.mem_enum_iff_getElem?] at hp
      exact List.getElem?_mem hp
    have hpos : 0 < (ScriptGeneratorAgent.sentencesOf script).length :=
      List.length_pos_of_mem hp2
    refine ⟨by rw [hlen script d]; exact hpos, by simp [lookup], ?_, ?_⟩
    · unfold ScriptGeneratorAgent.sentencesOf at hp2
      rw [List.mem_filterMap] at hp2
      obtain ⟨seg, hseg, heq⟩ := hp2
      by_cases hstrip : (ScriptGeneratorAgent.pyStrip seg).isEmpty
      · rw [if_pos hstrip] at heq
        cases heq
      · rw [if_neg hstrip, Option.some_inj] at heq
        exact ⟨seg, hseg, Bool.eq_false_iff.mpr hstrip, by simp [lookup, heq]⟩
    · rw [hlen script d]
      rw [if_pos hpos]
      simp [lookup]
  · intro script d hw
    have hsent : ScriptGeneratorAgent.sentencesOf script = [] := by
      unfold ScriptGeneratorAgent.sentencesOf
      rw [List.filterMap_eq_nil_iff]
      intro seg hseg
      have hstrip : ScriptGeneratorAgent.pyStrip seg = [] :=
        pyStrip_of_all_whitespace (fun c hc => hw c (mem_pySplitDot_sub hseg c hc))
      simp [hstrip]
    simp [ScriptGeneratorAgent.create_scenes_core, hsent]

/-- Witness for C10: a whitespace-only script yields no scenes; in the
two-sentence script `"Welcome in. Eat well."` the first scene has matching
text and voiceover, carries a stripped segment with its period, and has
duration `30 / 2`. -/
theorem C10_scene_breakdown_witness :
    ScriptGeneratorAgent.create_scenes_core "  " 30 = []
  ∧ (0 < (ScriptGeneratorAgent.create_scenes_core "Welcome in. Eat well." 30).length
     ∧ lookup [("text", Val.str "Welcome in."), ("duration", Val.rat 15),
          ("image_prompt", Val.str "restaurant exterior, welcoming entrance, warm lighting"),
          ("voiceover_text", Val.str "Welcome in.")] "text" =
        lookup [("text", Val.str "Welcome in."), ("duration", Val.rat 15),
          ("image_prompt", Val.str "restaurant exterior, welcoming entrance, warm lighting"),
          ("voiceover_text", Val.str "Welcome in.")] "voiceover_text"
     ∧ (∃ seg ∈ ScriptGeneratorAgent.pySplitDot ("Welcome in. Eat well.").data,
          (ScriptGeneratorAgent.pyStrip seg).isEmpty = false ∧
          lookup [("text", Val.str "Welcome in."), ("duration", Val.rat 15),
              ("image_prompt", Val.str "restaurant exterior, welcoming entrance, warm lighting"),
              ("voiceover_text", Val.str "Welcome in.")] "text" =
            some (Val.str (String.mk (ScriptGeneratorAgent.pyStrip seg ++ ['.']))))
     ∧ lookup [("text", Val.str "Welcome in."), ("duration", Val.rat 15),
          ("image_prompt", Val.str "restaurant exterior, welcoming entrance, warm lighting"),
          ("voiceover_text", Val.str "Welcome in.")] "duration" =
        some (Val.rat (30 /
          ((ScriptGeneratorAgent.create_scenes_core "Welcome in. Eat well." 30).length : ℚ)))) := by
  refine ⟨C10_scene_breakdown.2.2 "  " 30 (by decide), ?_⟩
  have h0 : 0 < (ScriptGeneratorAgent.create_scenes_core "Welcome in. Eat well." 30).length := by
    decide
  have hmem := List.get_mem (ScriptGeneratorAgent.create_scenes_core "Welcome in. Eat well." 30) 0 h0
  have he : (ScriptGeneratorAgent.create_scenes_core "Welcome in. Eat well." 30).get ⟨0, h0⟩ =
      [("text", Val.str "Welcome in."), ("duration", Val.rat 15),
       ("image_prompt", Val.str "restaurant exterior, welcoming entrance, warm lighting"),
       ("voiceover_text", Val.str "Welcome in.")] := by with_unfolding_all rfl
  rw [he] at hmem
  exact C10_scene_breakdown.2.1 "Welcome in. Eat well." 30 _ hmem

theorem vw_success_run (ag : VideoWorkflow.Agents) (input : Obj) (url : Val)
    (ri md sd vr : Obj) (rname menu s sc st vp tp dur fs res : Val)
    (hurl : lookup input "google_maps_url" = some url)
    (h1 : ag.mapParser (VideoWorkflow.mapInput url) = .ok ri)
    (h2 : ag.menu_extractor (VideoWorkflow.menuInput ri) = .ok md)
    (hrn : lookup ri "restaurant_name" = some rname)
    (hm : lookup md "menu" = some menu)
    (h3 : ag.script_generator (VideoWorkflow.scriptInput input ri rname menu) = .ok sd)
    (hs : lookup sd "script" = some s)
    (hsc : lookup sd "scenes" = some sc)
    (hst : lookup sd "style" = some st)
    (h4 : ag.video_generator (VideoWorkflow.videoInput s sc rname st) = .ok vr)
    (hvp : lookup vr "video_path" = some vp)
    (htp : lookup vr "thumbnail_path" = some tp)
    (hd : lookup vr "duration" = some dur)
    (hf : lookup vr "file_size" = some fs)
    (hr : lookup vr "resolution" = some res) :
    VideoWorkflow.run ag input =
      (VideoWorkflow.completedResult vp tp ri md sd dur fs res
        (getD input "task_id" (Val.str "workflow")),
       [⟨"map\x5fparser", VideoWorkflow.mapInput url, .ok ri⟩,
        ⟨"menu_extractor", VideoWorkflow.menuInput ri, .ok md⟩,
        ⟨"script_generator", VideoWorkflow.scriptInput input ri rname menu, .ok sd⟩,
        ⟨"video_generator", VideoWorkflow.videoInput s sc rname st, .ok vr⟩]) := by
  simp [VideoWorkflow.run, hurl, h1, h2, hrn, hm, h3, hs, hsc, hst, h4, hvp, htp, hd, hf, hr]

set_option maxHeartbeats 2000000 in
theorem agno_success_run (ag : AgnoVideoWorkflow.Agents) (url style : String)
    (rd va md fi sd so pp vo su : Obj)
    (h1 : ag.extract_restaurant_data url = .ok rd)
    (h1s : lookup rd "status" = some (Val.str "success"))
    (h2 : ag.analyze_restaurant_characteristics rd = .ok va)
    (h3 : ag.extract_menu_data "" = .ok md)
    (h4 : ag.recommend_featured_items md (insertObj rd "analysis" (Val.dict va)) = .ok fi)
    (h5 : ag.generate_video_script (insertObj rd "analysis" (Val.dict va))
        (insertObj md "featured_items" (Val.dict fi)) style = .ok sd)
    (h5s : lookup sd "status" = some (Val.str "success"))
    (h6 : ag.create_social_media_content (insertObj rd "analysis" (Val.dict va)) = .ok so)
    (h7 : ag.plan_video_production (insertObj sd "social_content" (Val.dict so))
        (insertObj rd "analysis" (Val.dict va)) = .ok pp)
    (h7s : lookup pp "status" = some (Val.str "success"))
    (h8 : ag.prepare_voiceover_generation
        (AgnoVideoWorkflow.extract_script_text (insertObj sd "social_content" (Val.dict so)))
        style = .ok vo)
    (h9 : ag.generate_production_summary
        [("restaurant_data", Val.dict (insertObj rd "analysis" (Val.dict va))),
         ("menu_data", Val.dict (insertObj md "featured_items" (Val.dict fi))),
         ("script_data", Val.dict (insertObj sd "social_content" (Val.dict so))),
         ("production_plan", Val.dict (insertObj pp "voiceover" (Val.dict vo)))] = .ok su) :
    AgnoVideoWorkflow.generate_promotional_video ag url style =
      ([("status", Val.str "completed"),
        ("phases", Val.dict
          [("restaurant_data", Val.dict
             [("completed", Val.bool true), ("status", Val.str "completed")]),
           ("menu_analysis", Val.dict
             [("completed", Val.bool true), ("status", Val.str "completed")]),
           ("content_creation", Val.dict
             [("completed", Val.bool true), ("status", Val.str "completed")]),
           ("video_production", Val.dict
             [("completed", Val.bool true), ("status", Val.str "completed")])]),
        ("results", Val.dict
          [("restaurant_data", Val.dict (insertObj rd "analysis" (Val.dict va))),
           ("menu_data", Val.dict (insertObj md "featured_items" (Val.dict fi))),
           ("content_data", Val.dict (insertObj sd "social_content" (Val.dict so))),
           ("video_production", Val.dict
             (insertObj (insertObj pp "voiceover" (Val.dict vo)) "summary" (Val.dict su)))]),
        ("completion_time", Val.dict
          [("total_seconds", Val.int 315), ("formatted", Val.str "5m 15s"),
           ("phase_breakdown", Val.dict AgnoVideoWorkflow.phase_times)])],
       [⟨"extract_restaurant_data", [Val.str url], .ok rd⟩,
        ⟨"analyze_restaurant_characteristics", [Val.dict rd], .ok va⟩,
        ⟨"extract_menu_data", [Val.str ""], .ok md⟩,
        ⟨"recommend_featured_items",
          [Val.dict md, Val.dict (insertObj rd "analysis" (Val.dict va))], .ok fi⟩,
        ⟨"generate_video_script",
          [Val.dict (insertObj rd "analysis" (Val.dict va)),
           Val.dict (insertObj md "featured_items" (Val.dict fi)), Val.str style], .ok sd⟩,
        ⟨"create_social_media_content",
          [Val.dict (insertObj rd "analysis" (Val.dict va))], .ok so⟩,
        ⟨"plan_video_production",
          [Val.dict (insertObj sd "social_content" (Val.dict so)),
           Val.dict (insertObj rd "analysis" (Val.dict va))], .ok pp⟩,
        ⟨"prepare_voiceover_generation",
          [Val.str (AgnoVideoWorkflow.extract_script_text
             (insertObj sd "social_content" (Val.dict so))), Val.str style], .ok vo⟩,
        ⟨"generate_production_summary",
          [Val.dict [("restaurant_data", Val.dict (insertObj rd "analysis" (Val.dict va))),
            ("menu_data", Val.dict (insertObj md "featured_items" (Val.dict fi))),
            ("script_data", Val.dict (insertObj sd "social_content" (Val.dict so))),
            ("production_plan", Val.dict (insertObj pp "voiceover" (Val.dict vo)))]],
          .ok su⟩]) := by
  have hss : isStr (Val.str "success") "success" = true := rfl
  simp only [AgnoVideoWorkflow.generate_promotional_video, extract_website_url_blank,
    h1, h1s, h2, h3, h4, h5, h5s, h6, h7, h7s, h8, h9, hss,
    Bool.not_true, Bool.false_eq_true, if_false]
  rfl

/-- C6: on a fully successful run, each workflow returns a mapping from
step name to that step's JSON blob over all four steps: `VideoWorkflow.run`
returns status `"completed"` with `restaurant_info`, `menu_data`,
`script_data` and `video_metadata`; `generate_promotional_video` returns
status `"completed"` whose `results` hold `restaurant_data`, `menu_data`,
`content_data` and `video_production`, with every phase marked completed. -/
theorem C6_completed_run_collects_all_steps :
    (∀ (ag : VideoWorkflow.Agents) (input : Obj) (url : Val)
       (ri md sd vr : Obj) (rname menu s sc st vp tp dur fs res : Val),
       lookup input "google_maps_url" = some url →
       ag.mapParser (VideoWorkflow.mapInput url) = .ok ri →
       ag.menu_extractor (VideoWorkflow.menuInput ri) = .ok md →
       lookup ri "restaurant_name" = some rname →
       lookup md "menu" = some menu →
       ag.script_generator (VideoWorkflow.scriptInput input ri rname menu) = .ok sd →
       lookup sd "script" = some s →
       lookup sd "scenes" = some sc →
       lookup sd "style" = some st →
       ag.video_generator (VideoWorkflow.videoInput s sc rname st) = .ok vr →
       lookup vr "video_path" = some vp →
       lookup vr "thumbnail_path" = some tp →
       lookup vr "duration" = some dur →
       lookup vr "file_size" = some fs →
       lookup vr "resolution" = some res →
       lookup (VideoWorkflow.run ag input).1 "status" = some (Val.str "completed")
       ∧ lookup (VideoWorkflow.run ag input).1 "restaurant_info" = some (Val.dict ri)
       ∧ lookup (VideoWorkflow.run ag input).1 "menu_data" = some (Val.dict md)
       ∧ lookup (VideoWorkflow.run ag input).1 "script_data" = some (Val.dict sd)
       ∧ lookup (VideoWorkflow.run ag input).1 "video_metadata" =
           some (Val.dict [("duration", dur), ("file_size", fs), ("resolution", res)]))
  ∧ (∀ (ag : AgnoVideoWorkflow.Agents) (url style : String)
       (rd va md fi sd so pp vo su : Obj),
       ag.extract_restaurant_data url = .ok rd →
       lookup rd "status" = some (Val.str "success") →
       ag.analyze_restaurant_characteristics rd = .ok va →
       ag.extract_menu_data "" = .ok md →
       ag.recommend_featured_items md (insertObj rd "analysis" (Val.dict va)) = .ok fi →
       ag.generate_video_script (insertObj rd "analysis" (Val.dict va))
         (insertObj md "featured_items" (Val.dict fi)) style = .ok sd →
       lookup sd "status" = some (Val.str "success") →
       ag.create_social_media_content (insertObj rd "analysis" (Val.dict va)) = .ok so →
       ag.plan_video_production (insertObj sd "social_content" (Val.dict so))
         (insertObj rd "analysis" (Val.dict va)) = .ok pp →
       lookup pp "status" = some (Val.str "success") →
       ag.prepare_voiceover_generation
         (AgnoVideoWorkflow.extract_script_text (insertObj sd "social_content" (Val.dict so)))
         style = .ok vo →
       ag.generate_production_summary
         [("restaurant_data", Val.dict (insertObj rd "analysis" (Val.dict va))),
          ("menu_data", Val.dict (insertObj md "featured_items" (Val.dict fi))),
          ("script_data", Val.dict (insertObj sd "social_content" (Val.dict so))),
          ("production_plan", Val.dict (insertObj pp "voiceover" (Val.dict vo)))] = .ok su →
       lookup (AgnoVideoWorkflow.generate_promotional_video ag url style).1 "status" =
         some (Val.str "completed")
       ∧ lookup (AgnoVideoWorkflow.generate_promotional_video ag url style).1 "results" =
           some (Val.dict
             [("restaurant_data", Val.dict (insertObj rd "analysis" (Val.dict va))),
              ("menu_data", Val.dict (insertObj md "featured_items" (Val.dict fi))),
              ("content_data", Val.dict (insertObj sd "social_content" (Val.dict so))),
              ("video_production", Val.dict
                (insertObj (insertObj pp "voiceover" (Val.dict vo)) "summary" (Val.dict su)))])
       ∧ lookup (AgnoVideoWorkflow.generate_promotional_video ag url style).1 "phases" =
           some (Val.dict
             [("restaurant_data", Val.dict
                [("completed", Val.bool true), ("status", Val.str "completed")]),
              ("menu_analysis", Val.dict
                [("completed", Val.bool true), ("status", Val.str "completed")]),
              ("content_creation", Val.dict
                [("completed", Val.bool true), ("status", Val.str "completed")]),
              ("video_production", Val.dict
                [("completed", Val.bool true), ("status", Val.str "completed")])])) := by
  constructor
  · intro ag input url ri md sd vr rname menu s sc st vp tp dur fs res
      hurl h1 h2 hrn hm h3 hs hsc hst h4 hvp htp hd hf hr
    rw [vw_success_run ag input url ri md sd vr rname menu s sc st vp tp dur fs res
      hurl h1 h2 hrn hm h3 hs hsc hst h4 hvp htp hd hf hr]
    simp [VideoWorkflow.completedResult, lookup]
  · intro ag url style rd va md fi sd so pp vo su
      h1 h1s h2 h3 h4 h5 h5s h6 h7 h7s h8 h9
    rw [agno_success_run ag url style rd va md fi sd so pp vo su
      h1 h1s h2 h3 h4 h5 h5s h6 h7 h7s h8 h9]
    simp [lookup]

/-- Witness for C6 at the concrete all-success fixtures. -/
theorem C6_completed_run_collects_all_steps_witness :
    (lookup (VideoWorkflow.run testVWAgents testVWInput).1 "status" =
       some (Val.str "completed")
     ∧ lookup (VideoWorkflow.run testVWAgents testVWInput).1 "restaurant_info" =
         some (Val.dict testRestaurantInfo)
     ∧ lookup (VideoWorkflow.run testVWAgents testVWInput).1 "menu_data" =
         some (Val.dict testMenuData)
     ∧ lookup (VideoWorkflow.run testVWAgents testVWInput).1 "script_data" =
         some (Val.dict testScriptData)
     ∧ lookup (VideoWorkflow.run testVWAgents testVWInput).1 "video_metadata" =
         some (Val.dict [("duration", Val.rat 30), ("file_size", Val.int 1000),
                         ("resolution", Val.str "1080x1920")]))
  ∧ (lookup (AgnoVideoWorkflow.generate_promotional_video testAgnoAgents
        "https://maps.example/place/Testaurant/" "casual").1 "status" =
       some (Val.str "completed")
     ∧ lookup (AgnoVideoWorkflow.generate_promotional_video testAgnoAgents
          "https://maps.example/place/Testaurant/" "casual").1 "results" =
         some (Val.dict
           [("restaurant_data", Val.dict
              (insertObj testAgnoRestaurantData "analysis" (Val.dict testAgnoAnalysis))),
            ("menu_data", Val.dict
              (insertObj testAgnoMenuSkipped "featured_items" (Val.dict testAgnoFeatured))),
            ("content_data", Val.dict
              (insertObj testAgnoScript "social_content" (Val.dict testAgnoSocial))),
            ("video_production", Val.dict
              (insertObj (insertObj testAgnoPlan "voiceover" (Val.dict testAgnoVoice))
                "summary" (Val.dict testAgnoSummary)))])
     ∧ lookup (AgnoVideoWorkflow.generate_promotional_video testAgnoAgents
          "https://maps.example/place/Testaurant/" "casual").1 "phases" =
         some (Val.dict
           [("restaurant_data", Val.dict
              [("completed", Val.bool true), ("status", Val.str "completed")]),
            ("menu_analysis", Val.dict
              [("completed", Val.bool true), ("status", Val.str "completed")]),
            ("content_creation", Val.dict
              [("completed", Val.bool true), ("status", Val.str "completed")]),
            ("video_production", Val.dict
              [("completed", Val.bool true), ("status", Val.str "completed")])])) :=
  ⟨C6_completed_run_collects_all_steps.1 testVWAgents testVWInput
     (Val.str "https://maps.example/place/Testaurant/")
     testRestaurantInfo testMenuData testScriptData testVideoResult
     (Val.str "Testaurant") testMenuVal (Val.str "Welcome in. Eat well.") (Val.list [])
     (Val.str "casual") (Val.str "out/video.mp4") (Val.str "out/thumb.jpg")
     (Val.rat 30) (Val.int 1000) (Val.str "1080x1920")
     rfl rfl rfl rfl rfl rfl rfl rfl rfl rfl rfl rfl rfl rfl rfl,
   C6_completed_run_collects_all_steps.2 testAgnoAgents
     "https://maps.example/place/Testaurant/" "casual"
     testAgnoRestaurantData testAgnoAnalysis testAgnoMenuSkipped testAgnoFeatured
     testAgnoScript testAgnoSocial testAgnoPlan testAgnoVoice testAgnoSummary
     rfl rfl rfl rfl rfl rfl rfl rfl rfl rfl rfl rfl⟩

/-- Counterexample to C3: in a concrete successful Agno run, the blob
recorded under `results["restaurant_data"]` is the API return extended
with the workflow-added `analysis` key, hence not equal to what the
step's API call (`extract_restaurant_data`) returned. -/
theorem C3_counterexample_recorded_blob_enriched :
    testAgnoAgents.extract_restaurant_data "https://maps.example/place/Testaurant/" =
      .ok testAgnoRestaurantData
  ∧ lookup (AgnoVideoWorkflow.generate_promotional_video testAgnoAgents
       "https://maps.example/place/Testaurant/" "casual").1 "results" =
      some (Val.dict
        [("restaurant_data", Val.dict
           (insertObj testAgnoRestaurantData "analysis" (Val.dict testAgnoAnalysis))),
         ("menu_data", Val.dict
           (insertObj testAgnoMenuSkipped "featured_items" (Val.dict testAgnoFeatured))),
         ("content_data", Val.dict
           (insertObj testAgnoScript "social_content" (Val.dict testAgnoSocial))),
         ("video_production", Val.dict
           (insertObj (insertObj testAgnoPlan "voiceover" (Val.dict testAgnoVoice))
             "summary" (Val.dict testAgnoSummary)))])
  ∧ insertObj testAgnoRestaurantData "analysis" (Val.dict testAgnoAnalysis) ≠
      testAgnoRestaurantData := by
  refine ⟨rfl, rfl, ?_⟩
  simp [insertObj, testAgnoRestaurantData, testAgnoAnalysis]

/-- C3 as amended: step blobs are passed by value and, once recorded, are
not modified by later steps; `VideoWorkflow.run` records each step's blob
exactly as the step returned it, while `generate_promotional_video`
records each phase's blob as the API return extended — within that same
phase, before recording — with the workflow-added enrichment keys
(`analysis`, `featured_items`, `social_content`, `voiceover`, `summary`),
and no later phase modifies a recorded blob. -/
theorem C3_amended_blobs_recorded_unmodified :
    (∀ (ag : VideoWorkflow.Agents) (input : Obj) (url : Val)
       (ri md sd vr : Obj) (rname menu s sc st vp tp dur fs res : Val),
       lookup input "google_maps_url" = some url →
       ag.mapParser (VideoWorkflow.mapInput url) = .ok ri →
       ag.menu_extractor (VideoWorkflow.menuInput ri) = .ok md →
       lookup ri "restaurant_name" = some rname →
       lookup md "menu" = some menu →
       ag.script_generator (VideoWorkflow.scriptInput input ri rname menu) = .ok sd →
       lookup sd "script" = some s →
       lookup sd "scenes" = some sc →
       lookup sd "style" = some st →
       ag.video_generator (VideoWorkflow.videoInput s sc rname st) = .ok vr →
       lookup vr "video_path" = some vp →
       lookup vr "thumbnail_path" = some tp →
       lookup vr "duration" = some dur →
       lookup vr "file_size" = some fs →
       lookup vr "resolution" = some res →
       lookup (VideoWorkflow.run ag input).1 "restaurant_info" = some (Val.dict ri)
       ∧ lookup (VideoWorkflow.run ag input).1 "menu_data" = some (Val.dict md)
       ∧ lookup (VideoWorkflow.run ag input).1 "script_data" = some (Val.dict sd))
  ∧ (∀ (ag : AgnoVideoWorkflow.Agents) (url style : String)
       (rd va md fi sd so pp vo su : Obj),
       ag.extract_restaurant_data url = .ok rd →
       lookup rd "status" = some (Val.str "success") →
       ag.analyze_restaurant_characteristics rd = .ok va →
       ag.extract_menu_data "" = .ok md →
       ag.recommend_featured_items md (insertObj rd "analysis" (Val.dict va)) = .ok fi →
       ag.generate_video_script (insertObj rd "analysis" (Val.dict va))
         (insertObj md "featured_items" (Val.dict fi)) style = .ok sd →
       lookup sd "status" = some (Val.str "success") →
       ag.create_social_media_content (insertObj rd "analysis" (Val.dict va)) = .ok so →
       ag.plan_video_production (insertObj sd "social_content" (Val.dict so))
         (insertObj rd "analysis" (Val.dict va)) = .ok pp →
       lookup pp "status" = some (Val.str "success") →
       ag.prepare_voiceover_generation
         (AgnoVideoWorkflow.extract_script_text (insertObj sd "social_content" (Val.dict so)))
         style = .ok vo →
       ag.generate_production_summary
         [("restaurant_data", Val.dict (insertObj rd "analysis" (Val.dict va))),
          ("menu_data", Val.dict (insertObj md "featured_items" (Val.dict fi))),
          ("script_data", Val.dict (insertObj sd "social_content" (Val.dict so))),
          ("production_plan", Val.dict (insertObj pp "voiceover" (Val.dict vo)))] = .ok su →
       lookup (AgnoVideoWorkflow.generate_promotional_video ag url style).1 "results" =
         some (Val.dict
           [("restaurant_data", Val.dict (insertObj rd "analysis" (Val.dict va))),
            ("menu_data", Val.dict (insertObj md "featured_items" (Val.dict fi))),
            ("content_data", Val.dict (insertObj sd "social_content" (Val.dict so))),
            ("video_production", Val.dict
              (insertObj (insertObj pp "voiceover" (Val.dict vo)) "summary" (Val.dict su)))])) := by
  constructor
  · intro ag input url ri md sd vr rname menu s sc st vp tp dur fs res
      hurl h1 h2 hrn hm h3 hs hsc hst h4 hvp htp hd hf hr
    rw [vw_success_run ag input url ri md sd vr rname menu s sc st vp tp dur fs res
      hurl h1 h2 hrn hm h3 hs hsc hst h4 hvp htp hd hf hr]
    simp [VideoWorkflow.completedResult, lookup]
  · intro ag url style rd va md fi sd so pp vo su
      h1 h1s h2 h3 h4 h5 h5s h6 h7 h7s h8 h9
    rw [agno_success_run ag url style rd va md fi sd so pp vo su
      h1 h1s h2 h3 h4 h5 h5s h6 h7 h7s h8 h9]
    simp [lookup]

/-- Witness for the amended C3 at the concrete all-success fixtures. -/
theorem C3_amended_blobs_recorded_unmodified_witness :
    (lookup (VideoWorkflow.run testVWAgents testVWInput).1 "restaurant_info" =
       some (Val.dict testRestaurantInfo)
     ∧ lookup (VideoWorkflow.run testVWAgents testVWInput).1 "menu_data" =
         some (Val.dict testMenuData)
     ∧ lookup (VideoWorkflow.run testVWAgents testVWInput).1 "script_data" =
         some (Val.dict testScriptData))
  ∧ lookup (AgnoVideoWorkflow.generate_promotional_video testAgnoAgents
       "https://maps.example/place/Testaurant/" "casual").1 "results" =
      some (Val.dict
        [("restaurant_data", Val.dict
           (insertObj testAgnoRestaurantData "analysis" (Val.dict testAgnoAnalysis))),
         ("menu_data", Val.dict
           (insertObj testAgnoMenuSkipped "featured_items" (Val.dict testAgnoFeatured))),
         ("content_data", Val.dict
           (insertObj testAgnoScript "social_content" (Val.dict testAgnoSocial))),
         ("video_production", Val.dict
           (insertObj (insertObj testAgnoPlan "voiceover" (Val.dict testAgnoVoice))
             "summary" (Val.dict testAgnoSummary)))]) :=
  ⟨C3_amended_blobs_recorded_unmodified.1 testVWAgents testVWInput
     (Val.str "https://maps.example/place/Testaurant/")
     testRestaurantInfo testMenuData testScriptData testVideoResult
     (Val.str "Testaurant") testMenuVal (Val.str "Welcome in. Eat well.") (Val.list [])
     (Val.str "casual") (Val.str "out/video.mp4") (Val.str "out/thumb.jpg")
     (Val.rat 30) (Val.int 1000) (Val.str "1080x1920")
     rfl rfl rfl rfl rfl rfl rfl rfl rfl rfl rfl rfl rfl rfl rfl,
   C3_amended_blobs_recorded_unmodified.2 testAgnoAgents
     "https://maps.example/place/Testaurant/" "casual"
     testAgnoRestaurantData testAgnoAnalysis testAgnoMenuSkipped testAgnoFeatured
     testAgnoScript testAgnoSocial testAgnoPlan testAgnoVoice testAgnoSummary
     rfl rfl rfl rfl rfl rfl rfl rfl rfl rfl rfl rfl⟩

/-- C1: the workflow is a fixed linear chain of the four stages in order,
each invoked at most once per run, with each stage's input built from the
previous stage's output: every `VideoWorkflow.run` trace is an initial
segment of map-parser → menu-extractor → script-generator →
video-generator with the data flow of `menuInput` / `scriptInput` /
`videoInput`; the Agno workflow builder configures exactly the four steps
restaurant → menu → content → production in order; and every
`generate_promotional_video` trace is an initial segment of the canonical
phase-ordered call list. -/
theorem C1_linear_four_stage_pipeline :
    (∀ (ag : VideoWorkflow.Agents) (input : Obj),
       vwChainShape input (VideoWorkflow.run ag input).2)
  ∧ create_video_generation_workflow.map WorkflowStep.name =
      ["restaurant_analysis", "menu_analysis", "content_creation", "video_production"]
  ∧ (∀ (ag : AgnoVideoWorkflow.Agents) (url style : String),
       ∃ n, (AgnoVideoWorkflow.generate_promotional_video ag url style).2.map
         AgnoVideoWorkflow.Call.agent = AgnoVideoWorkflow.canonicalCalls.take n) := by
  refine ⟨?_, rfl, ?_⟩
  · intro ag input
    simp only [VideoWorkflow.run]
    rcases hurl : lookup input "google_maps_url" with _ | url
    · exact Or.inl rfl
    simp only []
    rcases h1 : ag.mapParser (VideoWorkflow.mapInput url) with e | ri
    · exact Or.inr ⟨url, ⟨"map\x5fparser", VideoWorkflow.mapInput url, .error e⟩,
        hurl, rfl, rfl, Or.inl rfl⟩
    simp only []
    rcases h2 : ag.menu_extractor (VideoWorkflow.menuInput ri) with e | md
    · exact Or.inr ⟨url, ⟨"map\x5fparser", VideoWorkflow.mapInput url, .ok ri⟩, hurl, rfl, rfl,
        Or.inr ⟨ri, ⟨"menu_extractor", VideoWorkflow.menuInput ri, .error e⟩,
          rfl, rfl, rfl, Or.inl rfl⟩⟩
    simp only []
    rcases hrn : lookup ri "restaurant_name" with _ | rname
    · exact Or.inr ⟨url, ⟨"map\x5fparser", VideoWorkflow.mapInput url, .ok ri⟩, hurl, rfl, rfl,
        Or.inr ⟨ri, ⟨"menu_extractor", VideoWorkflow.menuInput ri, .ok md⟩,
          rfl, rfl, rfl, Or.inl rfl⟩⟩
    simp only []
    rcases hm : lookup md "menu" with _ | menu
    · exact Or.inr ⟨url, ⟨"map\x5fparser", VideoWorkflow.mapInput url, .ok ri⟩, hurl, rfl, rfl,
        Or.inr ⟨ri, ⟨"menu_extractor", VideoWorkflow.menuInput ri, .ok md⟩,
          rfl, rfl, rfl, Or.inl rfl⟩⟩
    simp only []
    rcases h3 : ag.script_generator (VideoWorkflow.scriptInput input ri rname menu) with e | sd
    · exact Or.inr ⟨url, ⟨"map\x5fparser", VideoWorkflow.mapInput url, .ok ri⟩, hurl, rfl, rfl,
        Or.inr ⟨ri, ⟨"menu_extractor", VideoWorkflow.menuInput ri, .ok md⟩, rfl, rfl, rfl,
          Or.inr ⟨md, rname, menu,
            ⟨"script_generator", VideoWorkflow.scriptInput input ri rname menu, .error e⟩,
            rfl, hrn, hm, rfl, rfl, Or.inl rfl⟩⟩⟩
    simp only []
    rcases hs : lookup sd "script" with _ | s
    · exact Or.inr ⟨url, ⟨"map\x5fparser", VideoWorkflow.mapInput url, .ok ri⟩, hurl, rfl, rfl,
        Or.inr ⟨ri, ⟨"menu_extractor", VideoWorkflow.menuInput ri, .ok md⟩, rfl, rfl, rfl,
          Or.inr ⟨md, rname, menu,
            ⟨"script_generator", VideoWorkflow.scriptInput input ri rname menu, .ok sd⟩,
            rfl, hrn, hm, rfl, rfl, Or.inl rfl⟩⟩⟩
    simp only []
    rcases hsc : lookup sd "scenes" with _ | sc
    · exact Or.inr ⟨url, ⟨"map\x5fparser", VideoWorkflow.mapInput url, .ok ri⟩, hurl, rfl, rfl,
        Or.inr ⟨ri, ⟨"menu_extractor", VideoWorkflow.menuInput ri, .ok md⟩, rfl, rfl, rfl,
          Or.inr ⟨md, rname, menu,
            ⟨"script_generator", VideoWorkflow.scriptInput input ri rname menu, .ok sd⟩,
            rfl, hrn, hm, rfl, rfl, Or.inl rfl⟩⟩⟩
    simp only []
    rcases hst : lookup sd "style" with _ | st
    · exact Or.inr ⟨url, ⟨"map\x5fparser", VideoWorkflow.mapInput url, .ok ri⟩, hurl, rfl, rfl,
        Or.inr ⟨ri, ⟨"menu_extractor", VideoWorkflow.menuInput ri, .ok md⟩, rfl, rfl, rfl,
          Or.inr ⟨md, rname, menu,
            ⟨"script_generator", VideoWorkflow.scriptInput input ri rname menu, .ok sd⟩,
            rfl, hrn, hm, rfl, rfl, Or.inl rfl⟩⟩⟩
    simp only []
    rcases h4 : ag.video_generator (VideoWorkflow.videoInput s sc rname st) with e | vr
    · exact Or.inr ⟨url, ⟨"map\x5fparser", VideoWorkflow.mapInput url, .ok ri⟩, hurl, rfl, rfl,
        Or.inr ⟨ri, ⟨"menu_extractor", VideoWorkflow.menuInput ri, .ok md⟩, rfl, rfl, rfl,
          Or.inr ⟨md, rname, menu,
            ⟨"script_generator", VideoWorkflow.scriptInput input ri rname menu, .ok sd⟩,
            rfl, hrn, hm, rfl, rfl,
            Or.inr ⟨sd, s, sc, st,
              ⟨"video_generator", VideoWorkflow.videoInput s sc rname st, .error e⟩,
              rfl, hs, hsc, hst, rfl, rfl, rfl⟩⟩⟩⟩
    · simp only []
      split
      all_goals exact Or.inr ⟨url, ⟨"map\x5fparser", VideoWorkflow.mapInput url, .ok ri⟩,
        hurl, rfl, rfl,
        Or.inr ⟨ri, ⟨"menu_extractor", VideoWorkflow.menuInput ri, .ok md⟩, rfl, rfl, rfl,
          Or.inr ⟨md, rname, menu,
            ⟨"script_generator", VideoWorkflow.scriptInput input ri rname menu, .ok sd⟩,
            rfl, hrn, hm, rfl, rfl,
            Or.inr ⟨sd, s, sc, st,
              ⟨"video_generator", VideoWorkflow.videoInput s sc rname st, .ok vr⟩,
              rfl, hs, hsc, hst, rfl, rfl, rfl⟩⟩⟩⟩
  · intro ag url style
    rcases hgen : AgnoVideoWorkflow.generate_promotional_video ag url style with ⟨r, tr⟩
    simp only [AgnoVideoWorkflow.generate_promotional_video] at hgen
    repeat' split at hgen
    all_goals injection hgen with hr htr
    all_goals subst htr
    all_goals first
      | exact ⟨0, rfl⟩ | exact ⟨1, rfl⟩ | exact ⟨2, rfl⟩ | exact ⟨3, rfl⟩ | exact ⟨4, rfl⟩
      | exact ⟨5, rfl⟩ | exact ⟨6, rfl⟩ | exact ⟨7, rfl⟩ | exact ⟨8, rfl⟩ | exact ⟨9, rfl⟩

/-- Counterexample to C2: in a concrete run of `generate_promotional_video`
the menu stage returns status `"skipped"` (not `"success"`) — exactly what
`MenuAgent.extract_menu_data` returns for the always-empty website URL —
yet the workflow does not return an error: it completes and every later
stage is still invoked (the trace is the full nine-call list). -/
theorem C2_counterexample_menu_status_not_checked :
    testAgnoAgents.extract_menu_data "" = .ok testAgnoMenuSkipped
  ∧ lookup testAgnoMenuSkipped "status" = some (Val.str "skipped")
  ∧ Val.str "skipped" ≠ Val.str "success"
  ∧ lookup (AgnoVideoWorkflow.generate_promotional_video testAgnoAgents
       "https://maps.example/place/Testaurant/" "casual").1 "status" =
      some (Val.str "completed")
  ∧ (AgnoVideoWorkflow.generate_promotional_video testAgnoAgents
       "https://maps.example/place/Testaurant/" "casual").2.map
      AgnoVideoWorkflow.Call.agent = AgnoVideoWorkflow.canonicalCalls := by
  refine ⟨rfl, rfl, by simp, rfl, rfl⟩

set_option maxHeartbeats 4000000 in
/-- C2 as amended: whenever any stage raises an exception, each workflow
immediately returns a failed/error result carrying the error message and
invokes no further stage (the failing call is the last of the trace); and
in `generate_promotional_video` a returned non-success status flag stops
the workflow in the same way at the restaurant-data, content-creation and
video-production phases — but the menu-analysis status flag is not
checked, so a non-success menu result does not stop the workflow. -/
theorem C2_amended_early_return_on_failure :
    (∀ (ag : VideoWorkflow.Agents) (input : Obj) (c : VideoWorkflow.Call) (e : String),
       c ∈ (VideoWorkflow.run ag input).2 →
       c.output = .error e →
       lookup (VideoWorkflow.run ag input).1 "status" = some (Val.str "failed")
       ∧ lookup (VideoWorkflow.run ag input).1 "error" = some (Val.str e)
       ∧ (VideoWorkflow.run ag input).2.getLast? = some c)
  ∧ (∀ (ag : AgnoVideoWorkflow.Agents) (url style : String)
       (c : AgnoVideoWorkflow.Call) (e : String),
       c ∈ (AgnoVideoWorkflow.generate_promotional_video ag url style).2 →
       c.output = .error e →
       lookup (AgnoVideoWorkflow.generate_promotional_video ag url style).1 "status" =
         some (Val.str "error")
       ∧ lookup (AgnoVideoWorkflow.generate_promotional_video ag url style).1 "error" =
           some (Val.str e)
       ∧ (AgnoVideoWorkflow.generate_promotional_video ag url style).2.getLast? = some c)
  ∧ (∀ (ag : AgnoVideoWorkflow.Agents) (url style : String)
       (c : AgnoVideoWorkflow.Call) (d : Obj) (st : Val),
       c ∈ (AgnoVideoWorkflow.generate_promotional_video ag url style).2 →
       c.output = .ok d →
       lookup d "status" = some st →
       isStr st "success" = false →
       (c.agent = "extract_restaurant_data" ∨ c.agent = "generate_video_script" ∨
        c.agent = "plan_video_production") →
       lookup (AgnoVideoWorkflow.generate_promotional_video ag url style).1 "status" =
         some (Val.str "error")
       ∧ lookup (AgnoVideoWorkflow.generate_promotional_video ag url style).1 "error" =
           some (getD d "error" (Val.str "Unknown error"))
       ∧ (AgnoVideoWorkflow.generate_promotional_video ag url style).2.getLast? = some c) := by
  refine ⟨?_, ?_, ?_⟩
  · intro ag input c e
    rcases hgen : VideoWorkflow.run ag input with ⟨r, tr⟩
    simp only [VideoWorkflow.run] at hgen
    repeat' split at hgen
    all_goals injection hgen with hr htr
    all_goals subst hr
    all_goals subst htr
    all_goals intro hc hout
    all_goals simp only [List.mem_cons, List.not_mem_nil, or_false] at hc
    all_goals repeat' (rcases hc with rfl | hc)
    all_goals simp only [] at hout
    all_goals injection hout
    all_goals subst_vars
    all_goals exact ⟨rfl, rfl, rfl⟩
  · intro ag url style c e
    rcases hgen : AgnoVideoWorkflow.generate_promotional_video ag url style with ⟨r, tr⟩
    simp only [AgnoVideoWorkflow.generate_promotional_video] at hgen
    repeat' split at hgen
    all_goals injection hgen with hr htr
    all_goals subst hr
    all_goals subst htr
    all_goals intro hc hout
    all_goals simp only [List.mem_cons, List.not_mem_nil, or_false] at hc
    all_goals repeat' (rcases hc with rfl | hc)
    all_goals simp only [] at hout
    all_goals injection hout
    all_goals subst_vars
    all_goals exact ⟨rfl, rfl, rfl⟩
  · intro ag url style c d st
    rcases hgen : AgnoVideoWorkflow.generate_promotional_video ag url style with ⟨r, tr⟩
    simp only [AgnoVideoWorkflow.generate_promotional_video] at hgen
    repeat' split at hgen
    all_goals injection hgen with hr htr
    all_goals subst hr
    all_goals subst htr
    all_goals intro hc hout hst hsucc hagent
    all_goals simp only [List.mem_cons, List.not_mem_nil, or_false] at hc
    all_goals repeat' (rcases hc with rfl | hc)
    all_goals simp only [] at hout
    all_goals injection hout
    all_goals subst_vars
    all_goals rcases hagent with h | h | h
    all_goals first
      | (simp_all; done)
      | (exact ⟨rfl, rfl, rfl⟩)

/-- Witness for the amended C2: a raising menu extractor makes
`VideoWorkflow.run` fail with that message and stop after that call, and a
non-success restaurant status makes `generate_promotional_video` stop with
an error result after the first call. -/
theorem C2_amended_early_return_on_failure_witness :
    (lookup (VideoWorkflow.run testVWAgentsMenuRaises testVWInput).1 "status" =
       some (Val.str "failed")
     ∧ lookup (VideoWorkflow.run testVWAgentsMenuRaises testVWInput).1 "error" =
         some (Val.str "boom")
     ∧ (VideoWorkflow.run testVWAgentsMenuRaises testVWInput).2.getLast? =
         some ⟨"menu_extractor", VideoWorkflow.menuInput testRestaurantInfo, .error "boom"⟩)
  ∧ (lookup (AgnoVideoWorkflow.generate_promotional_video testAgnoAgentsRestaurantFails
        "https://maps.example/place/Testaurant/" "casual").1 "status" =
       some (Val.str "error")
     ∧ lookup (AgnoVideoWorkflow.generate_promotional_video testAgnoAgentsRestaurantFails
          "https://maps.example/place/Testaurant/" "casual").1 "error" =
         some (getD [("status", Val.str "error"), ("error", Val.str "lookup failed"),
                     ("data_extracted", Val.bool false)] "error" (Val.str "Unknown error"))
     ∧ (AgnoVideoWorkflow.generate_promotional_video testAgnoAgentsRestaurantFails
          "https://maps.example/place/Testaurant/" "casual").2.getLast? =
         some ⟨"extract_restaurant_data",
           [Val.str "https://maps.example/place/Testaurant/"],
           .ok [("status", Val.str "error"), ("error", Val.str "lookup failed"),
                ("data_extracted", Val.bool false)]⟩) := by
  constructor
  · have h1 : 1 < (VideoWorkflow.run testVWAgentsMenuRaises testVWInput).2.length := by decide
    have hm := List.get_mem (VideoWorkflow.run testVWAgentsMenuRaises testVWInput).2 1 h1
    have he : (VideoWorkflow.run testVWAgentsMenuRaises testVWInput).2.get ⟨1, h1⟩ =
        ⟨"menu_extractor", VideoWorkflow.menuInput testRestaurantInfo, .error "boom"⟩ := rfl
    rw [he] at hm
    exact C2_amended_early_return_on_failure.1 testVWAgentsMenuRaises testVWInput _ "boom" hm rfl
  · have h1 : 0 < (AgnoVideoWorkflow.generate_promotional_video testAgnoAgentsRestaurantFails
        "https://maps.example/place/Testaurant/" "casual").2.length := by decide
    have hm := List.get_mem (AgnoVideoWorkflow.generate_promotional_video
      testAgnoAgentsRestaurantFails
      "https://maps.example/place/Testaurant/" "casual").2 0 h1
    have he : (AgnoVideoWorkflow.generate_promotional_video testAgnoAgentsRestaurantFails
        "https://maps.example/place/Testaurant/" "casual").2.get ⟨0, h1⟩ =
        ⟨"extract_restaurant_data", [Val.str "https://maps.example/place/Testaurant/"],
          .ok [("status", Val.str "error"), ("error", Val.str "lookup failed"),
               ("data_extracted", Val.bool false)]⟩ := rfl
    rw [he] at hm
    exact C2_amended_early_return_on_failure.2.2 testAgnoAgentsRestaurantFails
      "https://maps.example/place/Testaurant/" "casual" _
      [("status", Val.str "error"), ("error", Val.str "lookup failed"),
       ("data_extracted", Val.bool false)]
      (Val.str "error") hm rfl rfl rfl (Or.inl rfl)
